import Mathlib

/-!
Verification development for the TravelAgent backend
(`backend/app/custom_tools.py`, `backend/app/hotel_requests.py`,
`backend/app/main.py`).

The Python sources are shallowly embedded: every handler becomes a total
Lean function over explicit state (the module-level caches) and an explicit
environment describing what the network returns (token acquisition outcome,
HTTP status, response payload).  Network side effects are recorded as an
event trace so that statements such as "no booking POST is issued" can be
proved.  Python exceptions that are caught by a handler's top-level
`try/except` are modelled by the handler returning the same generic error
payload the `except` branch returns; `Option` is used for the individual
operations (indexing, `int()` parsing, dict key access) that can raise.
-/

namespace TravelAgent

/-! ## Python-style primitives -/

/-- Single-quote character, used inside user-facing message strings. -/
def sq : String := String.singleton (Char.ofNat 39)

/-- Truthiness of an optional string argument (`if not s:` in Python). -/
def truthyStr : Option String → Bool
  | none => false
  | some s => s != ""

/-- Truthiness of an optional list argument. -/
def truthyList : Option (List α) → Bool
  | none => false
  | some l => !l.isEmpty

/-- Truthiness of an optional numeric argument (numbers are modelled as
integers; no claim depends on fractional values). -/
def truthyNum : Option Int → Bool
  | none => false
  | some v => v != 0

/-- Helper for `str.split()` (no separator): split on whitespace runs,
dropping empty pieces.  `acc` holds the current word reversed. -/
def splitWsAux : List Char → List Char → List String
  | [], acc => if acc.isEmpty then [] else [String.mk acc.reverse]
  | c :: cs, acc =>
    if c.isWhitespace then
      if acc.isEmpty then splitWsAux cs [] else String.mk acc.reverse :: splitWsAux cs []
    else splitWsAux cs (c :: acc)

/-- Python `s.split()` with no argument. -/
def pySplit (s : String) : List String := splitWsAux s.toList []

/-- Helper for `str.split(sep)` with a single-character separator. -/
def splitOnCharAux (sep : Char) : List Char → List Char → List String
  | [], acc => [String.mk acc.reverse]
  | c :: cs, acc =>
    if c == sep then String.mk acc.reverse :: splitOnCharAux sep cs []
    else splitOnCharAux sep cs (c :: acc)

/-- Python `s.split(sep)` for a one-character separator (always returns at
least one piece, like Python). -/
def pySplitChar (s : String) (sep : Char) : List String := splitOnCharAux sep s.toList []

/-- Python `s.replace(c, "")` for a one-character pattern. -/
def removeChar (s : String) (c : Char) : String := String.mk (s.toList.filter (· != c))

/-- Decimal digit value of a character, if it is a digit. -/
def digitVal? (c : Char) : Option Nat := if c.isDigit then some (c.toNat - 48) else none

/-- Accumulate decimal digits; fails on any non-digit. -/
def digitsToNatAux : List Char → Nat → Option Nat
  | [], acc => some acc
  | c :: cs, acc =>
    match digitVal? c with
    | some d => digitsToNatAux cs (acc * 10 + d)
    | none => none

/-- Python `int(s)` restricted to optionally-signed decimal literals with
surrounding whitespace; anything else raises, i.e. returns `none`. -/
def pyInt? (s : String) : Option Int :=
  let cs := ((s.toList.dropWhile Char.isWhitespace).reverse.dropWhile Char.isWhitespace).reverse
  match cs with
  | '-' :: rest =>
    if rest.isEmpty then none else (digitsToNatAux rest 0).map (fun n => -(n : Int))
  | rest =>
    if rest.isEmpty then none else (digitsToNatAux rest 0).map (fun n => (n : Int))

/-- Lexicographic comparison on code points, Python's `<` on strings. -/
def pyStrLtAux : List Char → List Char → Bool
  | [], [] => false
  | [], _ :: _ => true
  | _ :: _, [] => false
  | a :: as, b :: bs => if a < b then true else if b < a then false else pyStrLtAux as bs

/-- Python `a < b` on strings. -/
def pyStrLt (a b : String) : Bool := pyStrLtAux a.toList b.toList

/-- Python `a <= b` on strings. -/
def pyStrLe (a b : String) : Bool := !pyStrLt b a

/-! ## Insertion-ordered dictionaries (Python `dict`)

The module-level caches are Python dicts; they are modelled as
insertion-ordered association lists.  Assigning to an existing key
overwrites the value in place (preserving the key's position), assigning a
fresh key appends at the end — exactly Python's semantics, which matters
because hotel pagination iterates over `dict.values()`. -/

/-- Python `d[k] = v`: overwrite the (first) binding of `k` in place,
else append at the end.  (Dicts built by this embedding never hold
duplicate keys, so "first" is exact.) -/
def dictInsert (k : String) (v : α) : List (String × α) → List (String × α)
  | [] => [(k, v)]
  | p :: tl => if p.1 == k then (k, v) :: tl else p :: dictInsert k v tl

/-- Python `d.get(k)`. -/
def dictGet (d : List (String × α)) (k : String) : Option α :=
  (d.find? (fun p => p.1 == k)).map (·.2)

/-! ## Result payloads

Every handler returns either a tagged dict (`{"status": ..., ...}`) or — in
one place, `book_flight`'s success path — a bare string. -/

/-- Projection of a flight offer returned by `search_flights`. -/
structure FlightProjection where
  booking_id : String
  airline : String
  price : String
  currency : String
  departure : String
  arrival : String
  departureTime : String
  arrivalTime : String
  duration : String
  stops : Nat
  cabin : String
deriving DecidableEq, Repr

/-- Projection of a hotel record returned by hotel search/pagination. -/
structure HotelProjection where
  hotel_id : String
  name : String
  city : String
  latitude : Option Int
  longitude : Option Int
  distance : Option Int
deriving DecidableEq, Repr

/-- Projection of a hotel offer returned by `search_hotel_offers`. -/
structure OfferProjection where
  offer_id : String
  hotel_id : String
  name : String
  city : String
  checkInDate : String
  checkOutDate : String
  price : String
  currency : String
  room_type : String
  payment_policy : String
deriving DecidableEq, Repr

/-- The value a tool handler hands back to the dispatcher. -/
inductive PyResult where
  | errorMsg (message : String)
  | emptyMsg (message : String)
  | successFlights (flights : List FlightProjection)
  | successHotels (hotels : List HotelProjection)
  | successOffers (offers : List OfferProjection) (message : String)
  | successBooking (booking_id : String)
  | plainString (s : String)
deriving DecidableEq, Repr

/-- Message of the catch-all `except` branch, identical in both modules. -/
def genericErrorMsg : String :=
  "We are currently unable to process your request. Please contact an agent or try again later."

/-- Result of the catch-all `except` branch. -/
def genericError : PyResult := .errorMsg genericErrorMsg

/-- A structured (tagged) payload, as opposed to a bare string. -/
def isStructured : PyResult → Bool
  | .plainString _ => false
  | _ => true

/-! ## Flight entities (`custom_tools.py`)

Fields accessed with `flight[...]` are modelled as required; fields
accessed with `.get(..., default)` are modelled as `Option`.  Sub-objects
the code merely copies through without inspecting (aircraft dicts,
co2Emissions lists, fees lists, ...) are carried as opaque strings. -/

/-- A `departure`/`arrival` object of a segment (`iataCode`, `at`). -/
structure FlightEndpoint where
  iataCode : String
  atTime : String
deriving DecidableEq, Repr

/-- One itinerary segment of a flight offer. -/
structure Segment where
  departure : FlightEndpoint
  arrival : FlightEndpoint
  carrierCode : String
  number : String
  aircraft : Option String
  duration : String
  id : String
  numberOfStops : Option Nat
  co2Emissions : Option String
  operating : Option String
deriving DecidableEq, Repr

/-- One itinerary of a flight offer. -/
structure Itinerary where
  duration : String
  segments : List Segment
deriving DecidableEq, Repr

/-- The `price` object of a flight offer. -/
structure Price where
  currency : String
  total : String
  base : String
  fees : Option String
deriving DecidableEq, Repr

/-- The `price` object inside `travelerPricings[0]`. -/
structure TPPrice where
  taxes : Option String
  refundableTaxes : Option String
deriving DecidableEq, Repr

/-- One entry of `travelerPricings[0]["fareDetailsBySegment"]`. -/
structure FareSegment where
  segmentId : String
  cabin : String
  fareBasis : String
  brandedFare : String
  classField : String
  includedCheckedBags : Option String
deriving DecidableEq, Repr

/-- One entry of `travelerPricings`. -/
structure TravelerPricing where
  price : TPPrice
  fareDetailsBySegment : List FareSegment
deriving DecidableEq, Repr

/-- A full flight offer entity as returned by the provider. -/
structure Flight where
  id : String
  typeField : Option String
  source : Option String
  instantTicketingRequired : Option Bool
  nonHomogeneous : Option Bool
  paymentCardRequired : Option Bool
  lastTicketingDate : Option String
  validatingAirlineCodes : List String
  itineraries : List Itinerary
  price : Price
  pricingOptions : Option String
  travelerPricings : List TravelerPricing
deriving DecidableEq, Repr

/-- The flight cache (`flight_cache = {}`), a module-level dict. -/
abbrev FlightDict := List (String × Flight)

/-! ## Booking payload built by `book_flight` -/

/-- The `operating` field of a payload segment:
`segment.get("operating", {"carrierCode": segment["carrierCode"]})`. -/
inductive OperatingField where
  | fromOffer (v : String)
  | defaultCarrier (carrierCode : String)
deriving DecidableEq, Repr

/-- The `includedCheckedBags` field of a payload fare segment:
`segment.get("includedCheckedBags", {"quantity": 1})`. -/
inductive BagsField where
  | fromOffer (v : String)
  | defaultQuantityOne
deriving DecidableEq, Repr

/-- The `pricingOptions` field of the payload:
`flight.get("pricingOptions", {"fareType": ["PUBLISHED"], ...})`. -/
inductive PricingOptionsField where
  | fromOffer (v : String)
  | defaultPublished
deriving DecidableEq, Repr

/-- One segment of the booking payload's single itinerary. -/
structure OrderSegment where
  departure : FlightEndpoint
  arrival : FlightEndpoint
  carrierCode : String
  number : String
  aircraft : String
  duration : String
  id : String
  numberOfStops : Nat
  co2Emissions : String
  operating : OperatingField
deriving DecidableEq, Repr

/-- The `price` object of the booking payload. -/
structure OrderPrice where
  currency : String
  total : String
  base : String
  fees : String
  taxes : String
  refundableTaxes : String
deriving DecidableEq, Repr

/-- One entry of the payload's `fareDetailsBySegment`. -/
structure OrderFareSegment where
  segmentId : String
  cabin : String
  fareBasis : String
  brandedFare : String
  classField : String
  includedCheckedBags : BagsField
deriving DecidableEq, Repr

/-- The flight-order body POSTed to the provider by `book_flight`. -/
structure FlightOrderBody where
  offerId : String
  typeField : String
  source : String
  instantTicketingRequired : Bool
  nonHomogeneous : Bool
  paymentCardRequired : Bool
  lastTicketingDate : Option String
  validatingAirlineCodes : List String
  segments : List OrderSegment
  price : OrderPrice
  pricingOptions : PricingOptionsField
  travelerPricingPrice : TPPrice
  fareDetails : List OrderFareSegment
  travelerFirstName : String
  travelerLastName : String
  contactFirstName : String
  contactLastName : String
deriving DecidableEq, Repr

/-- Guest record for `book_hotel`, shaped by the tool schema in `main.py`
(all six fields are `required` there). -/
structure Guest where
  tid : Int
  title : String
  firstName : String
  lastName : String
  phone : String
  email : String
deriving DecidableEq, Repr

/-- The hotel-order body POSTed to the provider by `book_hotel`. -/
structure HotelOrderBody where
  guests : List Guest
  guestReferences : List String
  hotelOfferId : String
  travelAgentEmail : String
  paymentHolderName : String
deriving DecidableEq, Repr

/-! ## Network events -/

/-- Provider requests issued by a handler, in order. -/
inductive NetEvent where
  | tokenRequest
  | flightSearchGet
  | flightBookingPost (body : FlightOrderBody)
  | hotelSearchGetByHotels
  | hotelSearchGetByGeocode
  | hotelSearchGetByCity
  | hotelOffersGet
  | hotelBookingPost (body : HotelOrderBody)
deriving DecidableEq, Repr

/-! ## `custom_tools.format_duration` -/

/-- Embedding of `format_duration` from `custom_tools.py`.  Returns `none`
exactly where the Python code raises (a caller's list comprehension then
aborts into the catch-all `except`): tuple unpacking of `split("H")` with
a part count other than two, or a failing `int(...)`. -/
def format_duration (duration : String) : Option String :=
  if ("PT".toList).isPrefixOf duration.toList then
    let d0 := String.mk (duration.toList.drop 2)
    let step1 : Option (Int × String) :=
      if d0.toList.contains 'H' then
        match pySplitChar d0 'H' with
        | [h, rest] => (pyInt? h).map (fun hv => (hv, rest))
        | _ => none
      else some (0, d0)
    match step1 with
    | none => none
    | some (hours, d1) =>
      let minutes? : Option Int :=
        if d1.toList.contains 'M' then pyInt? (removeChar d1 'M') else some 0
      minutes?.map (fun minutes =>
        if hours ≠ 0 then s!"{hours}h {minutes}m" else s!"{minutes}m")
  else some duration

/-! ## `custom_tools.search_flights` -/

/-- Map a fallible function over a list, failing if any element fails —
the behaviour of a Python list comprehension whose body can raise. -/
def mapOption (f : α → Option β) : List α → Option (List β)
  | [] => some []
  | x :: xs =>
    match f x, mapOption f xs with
    | some y, some ys => some (y :: ys)
    | _, _ => none

/-- The projection (`relevant_flights` entry) `search_flights` builds for
one flight; `none` where the Python expression raises an `IndexError`
(empty `validatingAirlineCodes` / `itineraries` / `segments` /
`travelerPricings` / `fareDetailsBySegment`) or `format_duration` raises. -/
def projectFlight (f : Flight) : Option FlightProjection := do
  let airline ← f.validatingAirlineCodes.head?
  let it0 ← f.itineraries.head?
  let s0 ← it0.segments.head?
  let sl ← it0.segments.getLast?
  let tp0 ← f.travelerPricings.head?
  let fd0 ← tp0.fareDetailsBySegment.head?
  let dur ← format_duration it0.duration
  some { booking_id := f.id, airline := airline, price := f.price.total,
         currency := f.price.currency,
         departure := s0.departure.iataCode, arrival := sl.arrival.iataCode,
         departureTime := s0.departure.atTime, arrivalTime := sl.arrival.atTime,
         duration := dur, stops := it0.segments.length - 1, cabin := fd0.cabin }

/-- What the network returns during one `search_flights` call: the token
exchange outcome and the flight-search HTTP response. -/
structure FlightSearchEnv where
  tokenOk : Bool
  respStatus : Nat
  respData : List Flight
  respErrorsText : String
deriving DecidableEq, Repr

/-- Embedding of `search_flights`.  Takes the current `flight_cache` and
returns (result, new cache, network events).  Note the cache writes happen
before the projection comprehension, so they survive even when the
projection raises and the handler answers with the generic error. -/
def search_flights (cache : FlightDict) (origin destination departure_date : Option String)
    (max_price : Option Int) (env : FlightSearchEnv) :
    PyResult × FlightDict × List NetEvent :=
  let _ := max_price
  if !truthyStr origin || !truthyStr destination || !truthyStr departure_date then
    (.errorMsg "Missing required flight search parameters.", cache, [])
  else if !env.tokenOk then
    (genericError, cache, [.tokenRequest])
  else
    let events : List NetEvent := [.tokenRequest, .flightSearchGet]
    if env.respStatus ≠ 200 then
      (.errorMsg ("Failed to search for flights: " ++ env.respErrorsText), cache, events)
    else if env.respData.isEmpty then
      (.emptyMsg "No flights available for the specified criteria.", cache, events)
    else
      let cache1 := env.respData.foldl (fun c f => dictInsert f.id f c) cache
      match mapOption projectFlight env.respData with
      | none => (genericError, cache1, events)
      | some ps => (.successFlights ps, cache1, events)

/-! ## `custom_tools.book_flight` -/

/-- Build one payload segment from a cached segment. -/
def orderSegmentOf (s : Segment) : OrderSegment :=
  { departure := s.departure, arrival := s.arrival, carrierCode := s.carrierCode,
    number := s.number, aircraft := s.aircraft.getD "emptyDict",
    duration := s.duration, id := s.id, numberOfStops := s.numberOfStops.getD 0,
    co2Emissions := s.co2Emissions.getD "emptyList",
    operating := match s.operating with
      | some v => .fromOffer v
      | none => .defaultCarrier s.carrierCode }

/-- Build one payload fare-details entry from a cached one. -/
def orderFareOf (fs : FareSegment) : OrderFareSegment :=
  { segmentId := fs.segmentId, cabin := fs.cabin, fareBasis := fs.fareBasis,
    brandedFare := fs.brandedFare, classField := fs.classField,
    includedCheckedBags := match fs.includedCheckedBags with
      | some v => .fromOffer v
      | none => .defaultQuantityOne }

/-- The flight-order body `book_flight` assembles from the cached entity
and the passenger name; `none` where the Python dict literal raises
(`itineraries[0]`, `travelerPricings[0]`, or `passenger_name.split()[0]` /
`[1]` — the latter is the fewer-than-two-name-tokens `IndexError`). -/
def buildFlightOrderBody (flight : Flight) (passenger_name : String) :
    Option FlightOrderBody := do
  let it0 ← flight.itineraries.head?
  let tp0 ← flight.travelerPricings.head?
  let toks := pySplit passenger_name
  let fn ← toks.get? 0
  let ln ← toks.get? 1
  some { offerId := flight.id,
         typeField := flight.typeField.getD "flight-offer",
         source := flight.source.getD "GDS",
         instantTicketingRequired := flight.instantTicketingRequired.getD false,
         nonHomogeneous := flight.nonHomogeneous.getD false,
         paymentCardRequired := flight.paymentCardRequired.getD false,
         lastTicketingDate := flight.lastTicketingDate,
         validatingAirlineCodes := flight.validatingAirlineCodes,
         segments := it0.segments.map orderSegmentOf,
         price := { currency := flight.price.currency, total := flight.price.total,
                    base := flight.price.base, fees := flight.price.fees.getD "emptyList",
                    taxes := tp0.price.taxes.getD "emptyList",
                    refundableTaxes := tp0.price.refundableTaxes.getD "0.00" },
         pricingOptions := match flight.pricingOptions with
           | some v => .fromOffer v
           | none => .defaultPublished,
         travelerPricingPrice := tp0.price,
         fareDetails := tp0.fareDetailsBySegment.map orderFareOf,
         travelerFirstName := fn, travelerLastName := ln,
         contactFirstName := fn, contactLastName := ln }

/-- What the network returns during one `book_flight` call. -/
structure FlightBookEnv where
  tokenOk : Bool
  respStatus : Nat
  respDataId : Option String
  respErrorsText : String
deriving DecidableEq, Repr

/-- Message `book_flight` returns when the id misses the cache. -/
def flightCacheMissMsg : String := "Flight data expired or missing. Please search again."

/-- Embedding of `book_flight`.  The cache lookup precedes any network
activity; the token exchange precedes payload construction; the POST is
only reached with a fully built payload. -/
def book_flight (cache : FlightDict) (booking_id passenger_name : Option String)
    (env : FlightBookEnv) : PyResult × List NetEvent :=
  if !truthyStr booking_id then
    (.errorMsg "Missing flight ID. Please select a flight before booking.", [])
  else if !truthyStr passenger_name then
    (.errorMsg "Missing passenger name. Please provide the full name of the passenger.", [])
  else
    match dictGet cache (booking_id.getD "") with
    | none => (.errorMsg flightCacheMissMsg, [])
    | some flight =>
      if !env.tokenOk then (genericError, [.tokenRequest])
      else
        match buildFlightOrderBody flight (passenger_name.getD "") with
        | none => (genericError, [.tokenRequest])
        | some body =>
          let events : List NetEvent := [.tokenRequest, .flightBookingPost body]
          if env.respStatus ≠ 201 then
            (.errorMsg ("Failed to book flight: " ++ env.respErrorsText), events)
          else
            match env.respDataId with
            | some oid => (.plainString ("✅ Booking Confirmed! Booking ID: " ++ oid), events)
            | none => (genericError, events)

/-! ## Hotel entities (`hotel_requests.py`) -/

/-- The `geoCode` sub-object of a hotel record. -/
structure GeoCode where
  latitude : Option Int
  longitude : Option Int
deriving DecidableEq, Repr

/-- The `distance` sub-object of a hotel record. -/
structure HotelDistance where
  value : Option Int
deriving DecidableEq, Repr

/-- A hotel record as returned by the provider's hotel search. -/
structure Hotel where
  hotelId : String
  name : Option String
  cityCode : Option String
  geoCode : Option GeoCode
  distance : Option HotelDistance
deriving DecidableEq, Repr

/-- The hotel cache (`hotel_cache = {}`), a module-level dict. -/
abbrev HotelDict := List (String × Hotel)

/-- `BATCH_SIZE = 5`. -/
def BATCH_SIZE : Nat := 5

/-- The per-hotel projection built by `get_next_hotel_results`. -/
def formatHotel (h : Hotel) : HotelProjection :=
  { hotel_id := h.hotelId, name := h.name.getD "Unknown", city := h.cityCode.getD "Unknown",
    latitude := h.geoCode.bind GeoCode.latitude,
    longitude := h.geoCode.bind GeoCode.longitude,
    distance := h.distance.bind HotelDistance.value }

/-! ## Process-level mutable state

`flight_cache`, `hotel_cache` and `hotel_pointer` are module-level
variables in the Python process: one instance shared by every WebSocket
connection (session).  The embedding therefore has a single `ProcState`
that all operations, from any session, read and write. -/

/-- The module-level mutable state of the backend process. -/
structure ProcState where
  flight_cache : FlightDict
  hotel_cache : HotelDict
  hotel_pointer : Nat
deriving DecidableEq, Repr

/-- The state at process start. -/
def initState : ProcState := { flight_cache := [], hotel_cache := [], hotel_pointer := 0 }

/-! ## `hotel_requests.get_next_hotel_results` -/

/-- Embedding of `get_next_hotel_results` (pagination). -/
def get_next_hotel_results (st : ProcState) : PyResult × ProcState :=
  if st.hotel_pointer ≥ st.hotel_cache.length then
    (.emptyMsg "No more hotels available.", st)
  else
    let hotels_to_send := ((st.hotel_cache.map Prod.snd).drop st.hotel_pointer).take BATCH_SIZE
    (.successHotels (hotels_to_send.map formatHotel),
     { st with hotel_pointer := st.hotel_pointer + hotels_to_send.length })

/-! ## `hotel_requests.search_hotels` -/

/-- What the network returns during one `search_hotels` call. -/
structure HotelSearchEnv where
  tokenOk : Bool
  respStatus : Nat
  respData : List Hotel
  respErrorsText : String
deriving DecidableEq, Repr

/-- The validation message for a non-3-letter city code. -/
def invalidCityMsg (cc : String) : String :=
  "Invalid city code: " ++ sq ++ cc ++ sq ++
    ". Provide a valid 3-letter IATA city code (e.g., " ++ sq ++ "SFO" ++ sq ++ ")."

/-- The cache rebuilt by a successful hotel search:
`hotel_cache.clear()` followed by `hotel_cache.update({h["hotelId"]: h
for h in data})`, with the pointer reset to 0. -/
def hotelReplaceCache (st : ProcState) (env : HotelSearchEnv) : ProcState :=
  { st with hotel_cache := env.respData.foldl (fun c h => dictInsert h.hotelId h c) [],
            hotel_pointer := 0 }

/-- Shared tail of `search_hotels`: issue the GET on the chosen endpoint,
classify the response, and on success replace the cache, reset the
pointer to 0 and serve the first batch via `get_next_hotel_results`. -/
def hotelSearchFetch (st : ProcState) (env : HotelSearchEnv) (getEvent : NetEvent) :
    PyResult × ProcState × List NetEvent :=
  if env.respStatus ≠ 200 then
    (.errorMsg ("Failed to search for hotels: " ++ env.respErrorsText), st,
     [.tokenRequest, getEvent])
  else if env.respData.isEmpty then
    (.emptyMsg "No hotels available for the specified criteria.", st,
     [.tokenRequest, getEvent])
  else
    ((get_next_hotel_results (hotelReplaceCache st env)).1,
     (get_next_hotel_results (hotelReplaceCache st env)).2,
     [.tokenRequest, getEvent])

/-- Embedding of `search_hotels`.  Mirrors the source's control flow: the
all-arguments-missing check happens first, then the token exchange, and
only then the endpoint selection — including the 3-letter city-code
validation, which therefore runs after a token has been requested.  The
branch where only one of latitude/longitude is supplied leaves `url`
unbound in Python (`NameError`, swallowed by the catch-all `except`). -/
def search_hotels (st : ProcState) (city_code : Option String)
    (latitude longitude : Option Int) (hotel_ids : Option (List String))
    (env : HotelSearchEnv) : PyResult × ProcState × List NetEvent :=
  if !truthyList hotel_ids && !truthyNum latitude && !truthyNum longitude
      && !truthyStr city_code then
    (.errorMsg "Please provide city code, geocode, or hotel ID.", st, [])
  else if !env.tokenOk then
    (genericError, st, [.tokenRequest])
  else if truthyList hotel_ids then
    hotelSearchFetch st env .hotelSearchGetByHotels
  else if truthyNum latitude && truthyNum longitude then
    hotelSearchFetch st env .hotelSearchGetByGeocode
  else if truthyStr city_code then
    if (city_code.getD "").toList.length ≠ 3 then
      (.errorMsg (invalidCityMsg (city_code.getD "")), st, [.tokenRequest])
    else
      hotelSearchFetch st env .hotelSearchGetByCity
  else
    (genericError, st, [.tokenRequest])

/-! ## `hotel_requests.search_hotel_offers` -/

/-- The `room.description` sub-object of a hotel offer. -/
structure RoomDescription where
  text : Option String
deriving DecidableEq, Repr

/-- The `room` sub-object of a hotel offer. -/
structure Room where
  description : RoomDescription
deriving DecidableEq, Repr

/-- The `policies` sub-object of a hotel offer. -/
structure Policies where
  paymentType : Option String
deriving DecidableEq, Repr

/-- The `price` sub-object of a hotel offer. -/
structure OfferPrice where
  total : Option String
  currency : Option String
deriving DecidableEq, Repr

/-- One entry of an offer-data record's `offers` list. -/
structure HotelOffer where
  id : Option String
  price : Option OfferPrice
  checkInDate : Option String
  checkOutDate : Option String
  room : Option Room
  policies : Option Policies
deriving DecidableEq, Repr

/-- The `hotel` sub-object of an offer-data record (keys accessed with
`[...]`, hence required). -/
structure OfferHotelInfo where
  hotelId : String
  name : String
  cityCode : String
deriving DecidableEq, Repr

/-- One element of the offers response's `data` list. -/
structure OfferData where
  hotel : OfferHotelInfo
  offers : List HotelOffer
deriving DecidableEq, Repr

/-- The per-offer formatting step of `search_hotel_offers`; `none` where
the Python body raises (`offers[0]` on an empty list, or a missing
`room`/`policies` key) — such offers are skipped, not fatal. -/
def formatOffer (od : OfferData) : Option OfferProjection := do
  let first ← od.offers.head?
  let room ← first.room
  let policies ← first.policies
  let price := (first.price.bind OfferPrice.total).getD "N/A"
  let currency := (first.price.bind OfferPrice.currency).getD "N/A"
  some { offer_id := first.id.getD "N/A",
         hotel_id := od.hotel.hotelId, name := od.hotel.name, city := od.hotel.cityCode,
         checkInDate := first.checkInDate.getD "N/A",
         checkOutDate := first.checkOutDate.getD "N/A",
         price := if price != "N/A" then price else "Not Available",
         currency := if currency != "N/A" then currency else "Not Available",
         room_type := room.description.text.getD "N/A",
         payment_policy := policies.paymentType.getD "N/A" }

/-- The markdown listing `search_hotel_offers` appends to its result. -/
def offersMessage (offers : List OfferProjection) : String :=
  "Here are the available offers:\n\n" ++
    String.join ((offers.enumFrom 1).map (fun p =>
      "**" ++ toString p.1 ++ ". " ++ p.2.name ++ "**\n" ++
      "➡️ **Offer ID:** `" ++ p.2.offer_id ++ "`\n" ++
      "➡️ **Room Type:** " ++ p.2.room_type ++ "\n" ++
      "➡️ **Price:** " ++ p.2.price ++ " " ++ p.2.currency ++ "\n" ++
      "➡️ **Payment Policy:** " ++ p.2.payment_policy ++ "\n" ++
      "---\n"))

/-- What the network returns during one `search_hotel_offers` call. -/
structure OffersEnv where
  tokenOk : Bool
  respStatus : Nat
  respData : List OfferData
  respErrorsText : String
deriving DecidableEq, Repr

/-- Embedding of `search_hotel_offers`.  `today` is the ambient
`datetime.today().strftime("%Y-%m-%d")`; date comparisons are Python
string comparisons.  All validation here happens before the token
exchange. -/
def search_hotel_offers (hotel_ids : Option (List String))
    (check_in_date check_out_date : Option String) (adults : Option Int)
    (today : String) (env : OffersEnv) : PyResult × List NetEvent :=
  if !truthyList hotel_ids then
    (.errorMsg "Missing hotel IDs.", [])
  else if !truthyStr check_in_date || !truthyStr check_out_date then
    (.errorMsg "Missing check-in or check-out date.", [])
  else if !truthyStr check_in_date || !truthyStr check_out_date then
    (.errorMsg "Please provide valid check-in and check-out dates.", [])
  else if pyStrLt (check_in_date.getD "") today then
    (.errorMsg "Check-in date must be in the future.", [])
  else if pyStrLe (check_out_date.getD "") (check_in_date.getD "") then
    (.errorMsg "Check-out date must be after the check-in date.", [])
  else if !env.tokenOk then
    (genericError, [.tokenRequest])
  else if env.respStatus ≠ 200 then
    (.errorMsg ("Failed to get offers: " ++ env.respErrorsText),
     [.tokenRequest, .hotelOffersGet])
  else if env.respData.isEmpty then
    (.emptyMsg "No available offers for the selected hotels.",
     [.tokenRequest, .hotelOffersGet])
  else if (env.respData.filterMap formatOffer).isEmpty then
    (.emptyMsg "No available offers for the selected hotels.",
     [.tokenRequest, .hotelOffersGet])
  else
    (.successOffers (env.respData.filterMap formatOffer)
       (offersMessage (env.respData.filterMap formatOffer)),
     [.tokenRequest, .hotelOffersGet])

/-! ## `hotel_requests.book_hotel` -/

/-- What the network returns during one `book_hotel` call. -/
structure HotelBookEnv where
  tokenOk : Bool
  respStatus : Nat
  respDataId : Option String
  respErrorsText : String
deriving DecidableEq, Repr

/-- Embedding of `book_hotel`.  Note there is no cache lookup of any kind:
after the two truthiness checks the token is requested and the order body
is built directly from the caller-supplied `offer_id` and `guests`. -/
def book_hotel (offer_id : Option String) (guests : Option (List Guest))
    (env : HotelBookEnv) : PyResult × List NetEvent :=
  if !truthyStr offer_id then
    (.errorMsg "Missing hotel offer ID. Please select a hotel before booking.", [])
  else if !truthyList guests then
    (.errorMsg "Missing guest information.", [])
  else if !env.tokenOk then
    (genericError, [.tokenRequest])
  else
    match guests.getD [] with
    | [] => (genericError, [.tokenRequest])
    | g0 :: gs =>
      let allGuests := g0 :: gs
      let body : HotelOrderBody :=
        { guests := allGuests,
          guestReferences := (List.range allGuests.length).map (fun i => toString (i + 1)),
          hotelOfferId := offer_id.getD "",
          travelAgentEmail := g0.email,
          paymentHolderName := g0.firstName ++ " " ++ g0.lastName }
      let events : List NetEvent := [.tokenRequest, .hotelBookingPost body]
      if env.respStatus ≠ 201 then
        (.errorMsg ("Failed to book hotel: " ++ env.respErrorsText), events)
      else
        match env.respDataId with
        | some oid => (.successBooking oid, events)
        | none => (genericError, events)

/-! ## Session operations over the shared process state

Each WebSocket connection (a "session") issues tool operations; the
operations all act on the single module-level `ProcState`.  The session id
is carried only as a label on the operation — nothing in the code keys any
state by it. -/

/-- A tool operation together with the network environment it runs in. -/
inductive SessionOp where
  | searchFlightsOp (origin destination departure_date : Option String)
      (max_price : Option Int) (env : FlightSearchEnv)
  | bookFlightOp (booking_id passenger_name : Option String) (env : FlightBookEnv)
  | searchHotelsOp (city_code : Option String) (latitude longitude : Option Int)
      (hotel_ids : Option (List String)) (env : HotelSearchEnv)
  | getNextHotelResultsOp
  | searchHotelOffersOp (hotel_ids : Option (List String))
      (check_in_date check_out_date : Option String) (adults : Option Int)
      (today : String) (env : OffersEnv)
  | bookHotelOp (offer_id : Option String) (guests : Option (List Guest))
      (env : HotelBookEnv)
deriving DecidableEq, Repr

/-- Execute one operation against the shared state. -/
def stepOp (st : ProcState) (op : SessionOp) : PyResult × ProcState × List NetEvent :=
  match op with
  | .searchFlightsOp o d dd mp env =>
    ((search_flights st.flight_cache o d dd mp env).1,
     { st with flight_cache := (search_flights st.flight_cache o d dd mp env).2.1 },
     (search_flights st.flight_cache o d dd mp env).2.2)
  | .bookFlightOp bid name env =>
    ((book_flight st.flight_cache bid name env).1, st,
     (book_flight st.flight_cache bid name env).2)
  | .searchHotelsOp cc la lo hids env => search_hotels st cc la lo hids env
  | .getNextHotelResultsOp =>
    ((get_next_hotel_results st).1, (get_next_hotel_results st).2, [])
  | .searchHotelOffersOp hids ci co ad today env =>
    ((search_hotel_offers hids ci co ad today env).1, st,
     (search_hotel_offers hids ci co ad today env).2)
  | .bookHotelOp oid gs env =>
    ((book_hotel oid gs env).1, st, (book_hotel oid gs env).2)

/-- Run a list of session-tagged operations, collecting each session's
results.  The tags are opaque labels: the state is process-wide. -/
def runOps (st : ProcState) : List (Nat × SessionOp) → List (Nat × PyResult) × ProcState
  | [] => ([], st)
  | (sid, op) :: rest =>
    ((sid, (stepOp st op).1) :: (runOps (stepOp st op).2.1 rest).1,
     (runOps (stepOp st op).2.1 rest).2)

/-! ## Orchestration (`main.py` WebSocket endpoint) -/

/-- The tool names advertised to the model (`AVAILABLE_FUNCTIONS`). -/
def AVAILABLE_FUNCTIONS_names : List String :=
  ["search_flights", "book_flight", "search_hotels", "get_next_hotel_results",
   "search_hotel_offers", "book_hotel"]

/-- The dispatchable handlers (`FUNCTION_MAP`).  `get_next_hotel_results`
is advertised but absent here. -/
def FUNCTION_MAP_names : List String :=
  ["search_flights", "book_flight", "search_hotels", "book_hotel", "search_hotel_offers"]

/-- A model-issued tool call.  `argsError = some e` models
`json.loads(arguments)` raising with text `e`. -/
structure ToolCall where
  id : String
  name : String
  argsError : Option String
deriving DecidableEq, Repr

/-- Serialized content of a history message. -/
inductive MsgContent where
  | text (s : String)
  | toolResult (r : PyResult)
  | errorObj (e : String)
deriving DecidableEq, Repr

/-- One entry of the conversation history. -/
structure Msg where
  role : String
  content : Option MsgContent
  tool_calls : List ToolCall
  tool_call_id : Option String
deriving DecidableEq, Repr

/-- One model reply, as `generate_chat_response` hands it back. -/
structure ModelReply where
  content : Option String
  tool_calls : List ToolCall
deriving Repr

/-- The system prompt from `main.py`. -/
def SYSTEM_PROMPT : String :=
  "You are a helpful AI assistant that helps users search and book flights and hotels.\n\n" ++
  "- When the user requests flights or hotels, you will store the full list of results internally.\n" ++
  "- If the user wants to book a flight, use the stored flight ID from the cache instead of calling " ++
    sq ++ "search_flights" ++ sq ++ " again.\n" ++
  "- If the user wants to book a hotel, first use " ++ sq ++ "search_hotels" ++ sq ++
    " to find available hotels.\n" ++
  "- To get available rooms or offers, use " ++ sq ++ "search_hotel_offers" ++ sq ++
    " with the correct hotel ID.\n" ++
  "- If the cache is empty or expired, THEN you can call " ++ sq ++ "search_hotels" ++ sq ++
    " again.\n"

/-- The message inserted when no system message is present. -/
def systemMsg : Msg :=
  { role := "system", content := some (.text SYSTEM_PROMPT),
    tool_calls := [], tool_call_id := none }

/-- Insert the system prompt at position 0 if no system message exists. -/
def ensureSystem (msgs : List Msg) : List Msg :=
  if msgs.any (fun m => m.role == "system") then msgs
  else systemMsg :: msgs

/-- A tool message answering call id `cid` with content `c`. -/
def toolMsg (cid : String) (c : MsgContent) : Msg :=
  { role := "tool", content := some c, tool_calls := [], tool_call_id := some cid }

/-- The per-tool-call loop of the endpoint.  For each call: parse the
arguments (a parse failure is caught and answered with an error object);
then execute the handler **only if** the name is in `FUNCTION_MAP` — an
unknown name falls through both the `if` and the `except` and appends
nothing.  Returns the appended tool messages (in call order) and the list
of calls that were dispatched to a handler. -/
def processToolCalls (execute : ToolCall → Except String PyResult) :
    List ToolCall → List Msg × List ToolCall
  | [] => ([], [])
  | tc :: rest =>
    let head : List Msg × List ToolCall :=
      match tc.argsError with
      | some e => ([toolMsg tc.id (.errorObj e)], [])
      | none =>
        if FUNCTION_MAP_names.contains tc.name then
          match execute tc with
          | .ok r => ([toolMsg tc.id (.toolResult r)], [tc])
          | .error e => ([toolMsg tc.id (.errorObj e)], [tc])
        else ([], [])
    let tail := processToolCalls execute rest
    (head.1 ++ tail.1, head.2 ++ tail.2)

/-- The fixed fallback reply (`response.get("content") or ...`). -/
def fallbackText : String :=
  "I" ++ sq ++ "m sorry, I couldn" ++ sq ++ "t understand that. Please try again."

/-- The apology produced when the follow-up model call raises. -/
def errorApology (e : String) : String :=
  "I" ++ sq ++ "m sorry, I encountered an error processing your request. " ++ e

/-- `content or fallback`: `None` and the empty string both fall back. -/
def contentOrFallback : Option String → String
  | some c => if c = "" then fallbackText else c
  | none => fallbackText

/-- Outcome of handling one inbound user payload. -/
structure ChatTurnResult where
  sentText : String
  history : List Msg
  executed : List ToolCall
deriving Repr

/-- Embedding of the per-message body of `websocket_endpoint`.  The model
is an oracle: `reply1` is the first response; if (and only if) it carries
tool calls, they are processed **once** and the follow-up response
`reply2` is requested; whatever `reply2` holds — including further tool
calls — its `content` (or the fallback text) is sent to the client.
There is no second round of tool execution. -/
def runChatTurn (messages : List Msg) (reply1 : ModelReply)
    (execute : ToolCall → Except String PyResult)
    (reply2 : Except String ModelReply) : ChatTurnResult :=
  if reply1.tool_calls.isEmpty then
    { sentText := contentOrFallback reply1.content, history := ensureSystem messages,
      executed := [] }
  else
    { sentText :=
        contentOrFallback
          (match reply2 with
           | .ok r => r.content
           | .error e => some (errorApology e)),
      history :=
        ensureSystem (ensureSystem messages ++
          [{ role := "assistant", content := reply1.content.map MsgContent.text,
             tool_calls := reply1.tool_calls, tool_call_id := none }] ++
          (processToolCalls execute reply1.tool_calls).1),
      executed := (processToolCalls execute reply1.tool_calls).2 }

/-! ## Concrete fixtures used by witnesses and counterexamples -/

/-- A benign handler oracle for orchestration scenarios. -/
def execEmpty : ToolCall → Except String PyResult :=
  fun _ => .ok (.emptyMsg "No flights available for the specified criteria.")

/-- A model-issued call to the advertised tool `get_next_hotel_results`. -/
def tcGetNext : ToolCall := ⟨"t1", "get_next_hotel_results", none⟩

/-- A model-issued call to `search_flights`. -/
def tcSearch1 : ToolCall := ⟨"call1", "search_flights", none⟩

/-- A second model-issued call to `search_flights`. -/
def tcSearch2 : ToolCall := ⟨"call2", "search_flights", none⟩


/-- A one-segment JFK→MAD itinerary. -/
def seg1 : Segment :=
  { departure := ⟨"JFK", "2025-06-01T10:00"⟩, arrival := ⟨"MAD", "2025-06-01T17:30"⟩,
    carrierCode := "IB", number := "6252", aircraft := none, duration := "PT7H30M",
    id := "s1", numberOfStops := none, co2Emissions := none, operating := none }

/-- Fare details for `seg1`. -/
def fare1 : FareSegment :=
  { segmentId := "s1", cabin := "ECONOMY", fareBasis := "Y", brandedFare := "BASIC",
    classField := "Y", includedCheckedBags := none }

/-- A well-formed flight offer with provider id `FL1`. -/
def flight1 : Flight :=
  { id := "FL1", typeField := none, source := none, instantTicketingRequired := none,
    nonHomogeneous := none, paymentCardRequired := none, lastTicketingDate := none,
    validatingAirlineCodes := ["IB"], itineraries := [⟨"PT7H30M", [seg1]⟩],
    price := ⟨"EUR", "800.00", "700.00", none⟩, pricingOptions := none,
    travelerPricings := [⟨⟨none, none⟩, [fare1]⟩] }

/-- A schema-complete guest record. -/
def guest1 : Guest :=
  { tid := 1, title := "MR", firstName := "John", lastName := "Smith",
    phone := "5551234567", email := "john@example.com" }
/-- The projection `search_flights` computes for `flight1`. -/
def projW6 : FlightProjection :=
  ⟨"FL1", "IB", "800.00", "EUR", "JFK", "MAD", "2025-06-01T10:00",
   "2025-06-01T17:30", "7h 30m", 0, "ECONOMY"⟩

/-- The booking payload `book_flight` assembles from the cached `flight1`
for passenger "John Smith". -/
def bodyW6 : FlightOrderBody :=
  { offerId := "FL1", typeField := "flight-offer", source := "GDS",
    instantTicketingRequired := false, nonHomogeneous := false,
    paymentCardRequired := false, lastTicketingDate := none,
    validatingAirlineCodes := ["IB"], segments := [orderSegmentOf seg1],
    price := ⟨"EUR", "800.00", "700.00", "emptyList", "emptyList", "0.00"⟩,
    pricingOptions := .defaultPublished, travelerPricingPrice := ⟨none, none⟩,
    fareDetails := [orderFareOf fare1],
    travelerFirstName := "John", travelerLastName := "Smith",
    contactFirstName := "John", contactLastName := "Smith" }

/-- A hotel fixture with id `Hi` for small indices `i`. -/
def mkHotel (i : Nat) : Hotel :=
  { hotelId := "H" ++ toString i, name := some ("Hotel " ++ toString i),
    cityCode := some "NYC", geoCode := some ⟨some 40, some 73⟩,
    distance := some ⟨some 1⟩ }

/-- Final state of the C10 witness scenario: three hotels cached, cursor 3. -/
def stW10 : ProcState :=
  ⟨[], [("H1", mkHotel 1), ("H2", mkHotel 2), ("H3", mkHotel 3)], 3⟩

/-- Result list of the C10 witness scenario. -/
def psW10 : List HotelProjection :=
  [formatHotel (mkHotel 1), formatHotel (mkHotel 2), formatHotel (mkHotel 3)]

/-- Flight-search network environment returning `flight1`. -/
def envS3 : FlightSearchEnv := ⟨true, 200, [flight1], ""⟩

/-- Flight-booking network environment that accepts the order. -/
def envB3 : FlightBookEnv := ⟨true, 201, some "ORDER1", ""⟩

/-- Process state after session 0's successful flight search. -/
def stW3 : ProcState := ⟨[("FL1", flight1)], [], 0⟩

/-- A six-hotel cache (two pagination batches: 5 + 1). -/
def cacheW6 : HotelDict :=
  [("H1", mkHotel 1), ("H2", mkHotel 2), ("H3", mkHotel 3),
   ("H4", mkHotel 4), ("H5", mkHotel 5), ("H6", mkHotel 6)]

/-! ## Iterated pagination -/

/-- Results and final state of `k` successive `get_next_hotel_results`
calls. -/
def runGetNext (st : ProcState) : Nat → List PyResult × ProcState
  | 0 => ([], st)
  | k + 1 =>
    ((get_next_hotel_results st).1 ::
        (runGetNext (get_next_hotel_results st).2 k).1,
     (runGetNext (get_next_hotel_results st).2 k).2)

/-- Result of the `(k+1)`-st `get_next_hotel_results` call (0-indexed). -/
def nthGetNext (st : ProcState) (k : Nat) : PyResult :=
  (get_next_hotel_results (runGetNext st k).2).1

/-! ## Helper lemmas -/

/-- A passenger name with fewer than two whitespace tokens makes the body
construction raise (`passenger_name.split()[1]`). -/
theorem buildFlightOrderBody_eq_none (flight : Flight) (name : String)
    (h : (pySplit name).length < 2) : buildFlightOrderBody flight name = none := by
  unfold buildFlightOrderBody
  have h1 : (pySplit name)[1]? = none := by
    rw [List.getElem?_eq_none_iff]
    omega
  cases h0 : flight.itineraries.head? <;>
    cases h2 : flight.travelerPricings.head? <;>
      cases h3 : (pySplit name)[0]? <;>
        simp [h0, h2, h3, h1, Option.bind]

/-- A successfully built body certifies at least two name tokens. -/
theorem buildFlightOrderBody_some_len (flight : Flight) (name : String)
    (body : FlightOrderBody) (h : buildFlightOrderBody flight name = some body) :
    2 ≤ (pySplit name).length := by
  by_cases h4 : 2 ≤ (pySplit name).length
  · exact h4
  · rw [buildFlightOrderBody_eq_none flight name (by omega)] at h
    cases h

/-- C9: book_flight succeeds only when passenger_name has at least two
whitespace-separated tokens; with fewer, the IndexError from
`passenger_name.split()[1]` is caught and the handler returns the generic
error payload, and the booking POST is never issued (only the token
request, which the code performs before building the body, appears in the
trace). -/
theorem book_flight_requires_two_name_tokens :
    (∀ (cache : FlightDict) (bid name : String) (flight : Flight) (env : FlightBookEnv),
      bid ≠ "" → name ≠ "" → dictGet cache bid = some flight →
      (pySplit name).length < 2 →
      book_flight cache (some bid) (some name) env = (genericError, [NetEvent.tokenRequest])) ∧
    (∀ (cache : FlightDict) (booking_id passenger_name : Option String)
      (env : FlightBookEnv) (s : String),
      (book_flight cache booking_id passenger_name env).1 = .plainString s →
      2 ≤ (pySplit (passenger_name.getD "")).length) := by
  constructor
  · intro cache bid name flight env hbid hname hget hlen
    unfold book_flight
    have h1 : truthyStr (some bid) = true := by simp [truthyStr, hbid]
    have h2 : truthyStr (some name) = true := by simp [truthyStr, hname]
    simp only [h1, h2, Bool.not_true, Bool.false_eq_true, if_false, Option.getD_some, hget]
    cases htok : env.tokenOk
    · simp
    · simp [buildFlightOrderBody_eq_none flight name hlen]
  · intro cache booking_id passenger_name env s h
    unfold book_flight at h
    split at h
    · simp at h
    split at h
    · simp at h
    split at h
    · simp at h
    next flight hget =>
      split at h
      · simp [genericError] at h
      split at h
      next hnone => simp [genericError] at h
      next body hbody =>
        exact buildFlightOrderBody_some_len flight _ body hbody

/-- C9 witness: a single-token passenger name on a cached flight yields
exactly the generic error and no booking POST. -/
theorem book_flight_requires_two_name_tokens_witness :
    book_flight [("FL1", flight1)] (some "FL1") (some "Madonna")
        ⟨true, 201, some "X", ""⟩ = (genericError, [NetEvent.tokenRequest]) :=
  book_flight_requires_two_name_tokens.1 [("FL1", flight1)] "FL1" "Madonna" flight1
    ⟨true, 201, some "X", ""⟩ (by decide) (by decide) (by decide) (by decide)

/-- When the pointer is still inside the cache, pagination returns the
next batch and advances by its length. -/
theorem get_next_hotel_results_inside (st : ProcState)
    (h : st.hotel_pointer < st.hotel_cache.length) :
    get_next_hotel_results st =
      (.successHotels ((((st.hotel_cache.map Prod.snd).drop st.hotel_pointer).take
          BATCH_SIZE).map formatHotel),
       { st with hotel_pointer := st.hotel_pointer +
          (((st.hotel_cache.map Prod.snd).drop st.hotel_pointer).take BATCH_SIZE).length }) := by
  unfold get_next_hotel_results
  rw [if_neg]
  omega

/-- When the pointer has reached the cache size, pagination reports the
empty status and leaves the state untouched. -/
theorem get_next_hotel_results_exhausted (st : ProcState)
    (h : st.hotel_pointer ≥ st.hotel_cache.length) :
    get_next_hotel_results st = (.emptyMsg "No more hotels available.", st) := by
  unfold get_next_hotel_results
  rw [if_pos h]

/-- First component of exhausted pagination. -/
theorem get_next_hotel_results_fst_empty (st : ProcState)
    (h : st.hotel_pointer ≥ st.hotel_cache.length) :
    (get_next_hotel_results st).1 = .emptyMsg "No more hotels available." := by
  rw [get_next_hotel_results_exhausted st h]

/-- When the shared fetch tail of `search_hotels` answers with a success
list, that list is the first batch of the freshly rebuilt cache and the
pointer has advanced by exactly its length. -/
theorem hotelSearchFetch_success (st : ProcState) (env : HotelSearchEnv) (ev : NetEvent)
    (ps : List HotelProjection) (st' : ProcState) (evs : List NetEvent)
    (h : hotelSearchFetch st env ev = (.successHotels ps, st', evs)) :
    ps = ((st'.hotel_cache.map Prod.snd).take BATCH_SIZE).map formatHotel ∧
    ps.length ≤ 5 ∧
    st'.hotel_pointer = ps.length ∧
    (st'.hotel_cache.length ≤ 5 →
      (get_next_hotel_results st').1 = .emptyMsg "No more hotels available.") := by
  unfold hotelSearchFetch at h
  split at h
  · simp at h
  split at h
  · simp at h
  rcases Nat.eq_zero_or_pos (hotelReplaceCache st env).hotel_cache.length with hz | hpos
  · rw [get_next_hotel_results_exhausted (hotelReplaceCache st env) (by omega)] at h
    simp at h
  · have hlt : (hotelReplaceCache st env).hotel_pointer <
        (hotelReplaceCache st env).hotel_cache.length := by
      simpa [hotelReplaceCache] using hpos
    rw [get_next_hotel_results_inside (hotelReplaceCache st env) hlt] at h
    simp only [Prod.mk.injEq] at h
    obtain ⟨hps, hst, -⟩ := h
    injection hps with hps
    subst hps
    subst hst
    have hptr0 : (hotelReplaceCache st env).hotel_pointer = 0 := by
      simp [hotelReplaceCache]
    refine ⟨?_, ?_, ?_, ?_⟩
    · simp [hptr0]
    · simp only [hptr0, List.drop_zero, List.length_map, List.length_take, BATCH_SIZE]
      omega
    · simp [hptr0]
    · intro hle
      apply get_next_hotel_results_fst_empty
      simp only [hptr0, List.drop_zero, Nat.zero_add] at hle ⊢
      simp only [List.length_take, List.length_map, BATCH_SIZE] at hle ⊢
      omega

/-- C10: a successful search_hotels call returns only the first pagination
batch — at most 5 hotel projections, namely the projections of the first
`min 5 N` cached hotels — and leaves the cursor advanced by exactly the
number of hotels returned, so when the search found `N ≤ 5` hotels a
follow-up get_next_hotel_results reports the empty status. -/
theorem search_hotels_first_batch (st : ProcState) (cc : Option String)
    (la lo : Option Int) (hids : Option (List String)) (env : HotelSearchEnv)
    (ps : List HotelProjection) (st' : ProcState) (evs : List NetEvent)
    (h : search_hotels st cc la lo hids env = (.successHotels ps, st', evs)) :
    ps = ((st'.hotel_cache.map Prod.snd).take BATCH_SIZE).map formatHotel ∧
    ps.length ≤ 5 ∧
    st'.hotel_pointer = ps.length ∧
    (st'.hotel_cache.length ≤ 5 →
      (get_next_hotel_results st').1 = .emptyMsg "No more hotels available.") := by
  unfold search_hotels at h
  split at h
  · simp at h
  split at h
  · simp [genericError] at h
  split at h
  · exact hotelSearchFetch_success _ _ _ _ _ _ h
  split at h
  · exact hotelSearchFetch_success _ _ _ _ _ _ h
  split at h
  · split at h
    · simp at h
    · exact hotelSearchFetch_success _ _ _ _ _ _ h
  · simp [genericError] at h

/-- C10 witness: a city search finding three hotels returns exactly their
three projections, advances the cursor to 3, and the follow-up pagination
call reports the empty status. -/
theorem search_hotels_first_batch_witness :
    psW10 = ((stW10.hotel_cache.map Prod.snd).take BATCH_SIZE).map formatHotel ∧
    psW10.length ≤ 5 ∧
    stW10.hotel_pointer = psW10.length ∧
    (stW10.hotel_cache.length ≤ 5 →
      (get_next_hotel_results stW10).1 = .emptyMsg "No more hotels available.") :=
  search_hotels_first_batch initState (some "NYC") none none none
    ⟨true, 200, [mkHotel 1, mkHotel 2, mkHotel 3], ""⟩ psW10 stW10
    [NetEvent.tokenRequest, NetEvent.hotelSearchGetByCity] (by decide)

/-- Unfolding equation for one pagination step of the iterator. -/
theorem runGetNext_succ_snd (st : ProcState) (k : Nat) :
    (runGetNext st (k + 1)).2 = (runGetNext (get_next_hotel_results st).2 k).2 := rfl

/-- Exhausted pagination on an explicit state, first component. -/
theorem get_next_mk_exhausted_fst (fc : FlightDict) (cache : HotelDict) (p : Nat)
    (h : cache.length ≤ p) :
    (get_next_hotel_results ⟨fc, cache, p⟩).1 = .emptyMsg "No more hotels available." := by
  rw [get_next_hotel_results_exhausted ⟨fc, cache, p⟩ h]

/-- Exhausted pagination on an explicit state, second component. -/
theorem get_next_mk_exhausted_snd (fc : FlightDict) (cache : HotelDict) (p : Nat)
    (h : cache.length ≤ p) :
    (get_next_hotel_results ⟨fc, cache, p⟩).2 = ⟨fc, cache, p⟩ := by
  rw [get_next_hotel_results_exhausted ⟨fc, cache, p⟩ h]

/-- In-range pagination on an explicit state, first component. -/
theorem get_next_mk_inside_fst (fc : FlightDict) (cache : HotelDict) (p : Nat)
    (h : p < cache.length) :
    (get_next_hotel_results ⟨fc, cache, p⟩).1 =
      .successHotels ((((cache.map Prod.snd).drop p).take BATCH_SIZE).map formatHotel) := by
  rw [get_next_hotel_results_inside ⟨fc, cache, p⟩ h]

/-- In-range pagination on an explicit state, second component. -/
theorem get_next_mk_inside_snd (fc : FlightDict) (cache : HotelDict) (p : Nat)
    (h : p < cache.length) :
    (get_next_hotel_results ⟨fc, cache, p⟩).2 =
      ⟨fc, cache, p + (((cache.map Prod.snd).drop p).take BATCH_SIZE).length⟩ := by
  rw [get_next_hotel_results_inside ⟨fc, cache, p⟩ h]

/-- Closed form of the pagination cursor: after `k` calls starting at `p`,
the cursor sits at `min (p + 5k) N` — monotone in `k`, bounded by the
cache size, never wrapping. -/
theorem runGetNext_state (fc : FlightDict) (cache : HotelDict) (k : Nat) :
    ∀ (p : Nat), p ≤ cache.length →
      (runGetNext ⟨fc, cache, p⟩ k).2 = ⟨fc, cache, min (p + 5 * k) cache.length⟩ := by
  induction k with
  | zero =>
    intro p hp
    simp only [runGetNext, ProcState.mk.injEq, true_and]
    omega
  | succ k ih =>
    intro p hp
    rw [runGetNext_succ_snd]
    by_cases hge : cache.length ≤ p
    · rw [get_next_mk_exhausted_snd fc cache p hge, ih p hp]
      simp only [ProcState.mk.injEq, true_and]
      omega
    · push_neg at hge
      rw [get_next_mk_inside_snd fc cache p hge]
      have hlen : (((cache.map Prod.snd).drop p).take BATCH_SIZE).length
          = min BATCH_SIZE (cache.length - p) := by
        rw [List.length_take, List.length_drop, List.length_map]
      rw [ih _ (by rw [hlen]; simp only [BATCH_SIZE]; omega)]
      simp only [ProcState.mk.injEq, true_and]
      rw [hlen]
      simp only [BATCH_SIZE]
      omega

/-- While `5k` is inside the cache, the `(k+1)`-st call returns the `k`-th
batch. -/
theorem nthGetNext_success (fc : FlightDict) (cache : HotelDict) (k : Nat)
    (h : 5 * k < cache.length) :
    nthGetNext ⟨fc, cache, 0⟩ k =
      .successHotels ((((cache.map Prod.snd).drop (5 * k)).take BATCH_SIZE).map formatHotel) := by
  unfold nthGetNext
  rw [runGetNext_state fc cache k 0 (by omega)]
  rw [show min (0 + 5 * k) cache.length = 5 * k from by omega]
  exact get_next_mk_inside_fst fc cache _ h

/-- Once `5k` has reached the cache size, every further call is empty. -/
theorem nthGetNext_empty (fc : FlightDict) (cache : HotelDict) (k : Nat)
    (h : cache.length ≤ 5 * k) :
    nthGetNext ⟨fc, cache, 0⟩ k = .emptyMsg "No more hotels available." := by
  unfold nthGetNext
  rw [runGetNext_state fc cache k 0 (by omega)]
  rw [show min (0 + 5 * k) cache.length = cache.length from by omega]
  exact get_next_mk_exhausted_fst fc cache _ (le_refl _)

/-- Concatenating the `⌈N/5⌉` batches recovers the whole list, in order. -/
theorem join_batches (l : List Hotel) :
    ((List.range ((l.length + 4) / 5)).map
      (fun k => (l.drop (5 * k)).take 5)).flatten = l := by
  suffices H : ∀ (n : Nat) (l : List Hotel), l.length = n →
      ((List.range ((l.length + 4) / 5)).map
        (fun k => (l.drop (5 * k)).take 5)).flatten = l from H l.length l rfl
  intro n
  induction n using Nat.strong_induction_on with
  | _ n ih =>
    intro l hn
    by_cases h0 : l = []
    · subst h0
      simp
    · have hlen : 0 < l.length := List.length_pos.mpr h0
      have hM : (l.length + 4) / 5 = ((l.drop 5).length + 4) / 5 + 1 := by
        rw [List.length_drop]
        omega
      rw [hM, List.range_succ_eq_map]
      simp only [List.map_cons, List.flatten_cons, List.map_map]
      have hdrop : ((List.range (((l.drop 5).length + 4) / 5)).map
          ((fun k => (l.drop (5 * k)).take 5) ∘ Nat.succ)) =
          ((List.range (((l.drop 5).length + 4) / 5)).map
            (fun k => ((l.drop 5).drop (5 * k)).take 5)) := by
        apply List.map_congr_left
        intro k _
        simp only [Function.comp_apply]
        rw [List.drop_drop]
        congr 2
        omega
      rw [hdrop, ih (l.drop 5).length (by rw [List.length_drop]; omega) (l.drop 5) rfl]
      simp only [Nat.mul_zero, List.drop_zero]
      exact List.take_append_drop 5 l

/-- Cursor monotonicity of a single pagination call. -/
theorem get_next_pointer_mono (st : ProcState) :
    st.hotel_pointer ≤ (get_next_hotel_results st).2.hotel_pointer := by
  unfold get_next_hotel_results
  split
  · exact le_refl _
  · simp

/-- No operation other than a hotel search ever lowers the cursor. -/
theorem stepOp_pointer_mono (st : ProcState) (op : SessionOp)
    (hop : ∀ cc la lo hids env, op ≠ .searchHotelsOp cc la lo hids env) :
    st.hotel_pointer ≤ (stepOp st op).2.1.hotel_pointer := by
  cases op with
  | searchFlightsOp o d dd mp env => exact le_refl _
  | bookFlightOp bid name env => exact le_refl _
  | searchHotelsOp cc la lo hids env => exact absurd rfl (hop cc la lo hids env)
  | getNextHotelResultsOp => exact get_next_pointer_mono st
  | searchHotelOffersOp hids ci co ad today env => exact le_refl _
  | bookHotelOp oid gs env => exact le_refl _

/-- C5: with the cursor at 0 over a cached result set of size N and batch
size B = 5, the successive get_next_hotel_results calls numbered
`0 ≤ k < ⌈N/5⌉` each return a success batch (the k-th contiguous slice of
5), those batches concatenate to exactly the cached list in its original
order, every call numbered `k ≥ ⌈N/5⌉` returns the empty status, the
cursor never decreases and never exceeds N (no wrap), and no operation
other than search_hotels ever lowers the cursor (search_hotels is the only
operation that resets it to 0). -/
theorem hotel_pagination_spec (fc : FlightDict) (cache : HotelDict) :
    BATCH_SIZE = 5 ∧
    (∀ k, k < (cache.length + 4) / 5 →
      nthGetNext ⟨fc, cache, 0⟩ k =
        .successHotels ((((cache.map Prod.snd).drop (5 * k)).take BATCH_SIZE).map formatHotel)) ∧
    ((List.range ((cache.length + 4) / 5)).map
        (fun k => ((cache.map Prod.snd).drop (5 * k)).take 5)).flatten = cache.map Prod.snd ∧
    (∀ k, (cache.length + 4) / 5 ≤ k →
      nthGetNext ⟨fc, cache, 0⟩ k = .emptyMsg "No more hotels available.") ∧
    (∀ k, (runGetNext ⟨fc, cache, 0⟩ k).2.hotel_pointer ≤
            (runGetNext ⟨fc, cache, 0⟩ (k + 1)).2.hotel_pointer ∧
          (runGetNext ⟨fc, cache, 0⟩ k).2.hotel_pointer ≤ cache.length) ∧
    (∀ (st : ProcState) (op : SessionOp),
      (∀ cc la lo hids env, op ≠ .searchHotelsOp cc la lo hids env) →
      st.hotel_pointer ≤ (stepOp st op).2.1.hotel_pointer) := by
  refine ⟨rfl, ?_, ?_, ?_, ?_, stepOp_pointer_mono⟩
  · intro k hk
    exact nthGetNext_success fc cache k (by omega)
  · have h := join_batches (cache.map Prod.snd)
    rw [List.length_map] at h
    exact h
  · intro k hk
    exact nthGetNext_empty fc cache k (by omega)
  · intro k
    rw [runGetNext_state fc cache k 0 (by omega),
        runGetNext_state fc cache (k + 1) 0 (by omega)]
    constructor
    · show min (0 + 5 * k) cache.length ≤ min (0 + 5 * (k + 1)) cache.length
      omega
    · show min (0 + 5 * k) cache.length ≤ cache.length
      omega

/-- C5 witness: over a six-hotel cache, call 0 is the first full batch,
call 2 is already empty, the two batches concatenate to the whole cache,
and the cursor is monotone between calls 1 and 2. -/
theorem hotel_pagination_spec_witness :
    nthGetNext ⟨[], cacheW6, 0⟩ 0 =
      .successHotels ((((cacheW6.map Prod.snd).drop (5 * 0)).take BATCH_SIZE).map formatHotel) ∧
    nthGetNext ⟨[], cacheW6, 0⟩ 2 = .emptyMsg "No more hotels available." ∧
    ((List.range ((cacheW6.length + 4) / 5)).map
        (fun k => ((cacheW6.map Prod.snd).drop (5 * k)).take 5)).flatten = cacheW6.map Prod.snd ∧
    (runGetNext ⟨[], cacheW6, 0⟩ 1).2.hotel_pointer ≤
      (runGetNext ⟨[], cacheW6, 0⟩ 2).2.hotel_pointer :=
  ⟨(hotel_pagination_spec [] cacheW6).2.1 0 (by decide),
   (hotel_pagination_spec [] cacheW6).2.2.2.1 2 (by decide),
   (hotel_pagination_spec [] cacheW6).2.2.1,
   ((hotel_pagination_spec [] cacheW6).2.2.2.2.1 1).1⟩

/-- C7 counterexample: `search_hotels` with the 2-letter city code "NY"
does return the validation error naming the code, but the network trace
already contains the access-token request — the token is acquired before
the city-code check, contradicting the claim that no token is requested
before the failure. -/
theorem search_hotels_token_before_validation_counterexample :
    (search_hotels initState (some "NY") none none none ⟨true, 200, [], ""⟩).1 =
      .errorMsg (invalidCityMsg "NY") ∧
    (search_hotels initState (some "NY") none none none ⟨true, 200, [], ""⟩).2.2 =
      [NetEvent.tokenRequest] := by decide

/-- C7 (amended): a search_hotels call whose city_code has length ≠ 3 (and
no hotel_ids or geocode) issues no provider hotel-search request and
leaves the state unchanged, and — when the token exchange succeeds —
returns the validation error naming the invalid code; however the access
token is requested before the validation check runs (the network trace is
exactly the token request). -/
theorem search_hotels_short_city_code (st : ProcState) (cc : String)
    (env : HotelSearchEnv) (hcc : cc ≠ "") (hlen : cc.length ≠ 3) :
    (search_hotels st (some cc) none none none env).2.2 = [NetEvent.tokenRequest] ∧
    (search_hotels st (some cc) none none none env).2.1 = st ∧
    (env.tokenOk = true →
      (search_hotels st (some cc) none none none env).1 = .errorMsg (invalidCityMsg cc)) := by
  cases htok : env.tokenOk
  · simp [search_hotels, truthyStr, truthyList, truthyNum, hcc, htok]
  · simp [search_hotels, truthyStr, truthyList, truthyNum, hcc, htok, hlen]

/-- C7 witness: the amended statement at city code "NY" with a successful
token exchange. -/
theorem search_hotels_short_city_code_witness :
    (search_hotels initState (some "NY") none none none ⟨true, 404, [], "x"⟩).2.2 =
      [NetEvent.tokenRequest] ∧
    (search_hotels initState (some "NY") none none none ⟨true, 404, [], "x"⟩).2.1 =
      initState ∧
    ((⟨true, 404, [], "x"⟩ : HotelSearchEnv).tokenOk = true →
      (search_hotels initState (some "NY") none none none ⟨true, 404, [], "x"⟩).1 =
        .errorMsg (invalidCityMsg "NY")) :=
  search_hotels_short_city_code initState "NY" ⟨true, 404, [], "x"⟩
    (by decide) (by decide)

/-- Pagination results are always tagged payloads. -/
theorem get_next_hotel_results_structured (st : ProcState) :
    isStructured (get_next_hotel_results st).1 = true := by
  unfold get_next_hotel_results
  split <;> rfl

/-- The shared hotel-search fetch tail always yields a tagged payload. -/
theorem hotelSearchFetch_structured (st : ProcState) (env : HotelSearchEnv)
    (ev : NetEvent) : isStructured (hotelSearchFetch st env ev).1 = true := by
  unfold hotelSearchFetch
  split
  · rfl
  split
  · rfl
  exact get_next_hotel_results_structured _

/-- C8 counterexample: a fully successful book_flight call (201 response
with an order id) returns the bare string
"✅ Booking Confirmed! Booking ID: ORDER1" — not a tagged
success/empty/error payload. -/
theorem book_flight_success_untagged_counterexample :
    (book_flight [("FL1", flight1)] (some "FL1") (some "John Smith")
        ⟨true, 201, some "ORDER1", ""⟩).1 =
      .plainString "✅ Booking Confirmed! Booking ID: ORDER1" ∧
    isStructured (book_flight [("FL1", flight1)] (some "FL1") (some "John Smith")
        ⟨true, 201, some "ORDER1", ""⟩).1 = false := by decide

/-- Inversion of book_flight's bare-string outcome: it occurs only on the
201-with-order-id path and carries the confirmation text. -/
theorem book_flight_plainString_inv (cache : FlightDict) (bid name : Option String)
    (env : FlightBookEnv) (s : String)
    (h : (book_flight cache bid name env).1 = .plainString s) :
    env.respStatus = 201 ∧ env.respDataId.isSome = true ∧
    s = "✅ Booking Confirmed! Booking ID: " ++ env.respDataId.getD "" := by
  unfold book_flight at h
  split at h
  · simp at h
  split at h
  · simp at h
  split at h
  · simp at h
  split at h
  · simp [genericError] at h
  split at h
  · simp [genericError] at h
  split at h
  · simp at h
  next hstatus =>
    split at h
    next oid hoid =>
      simp only at h
      injection h with h
      refine ⟨by omega, by rw [hoid]; rfl, ?_⟩
      rw [hoid, ← h]
      rfl
    next hnone => simp [genericError] at h

/-- C8 (amended): every tool handler returns a structured (tagged)
success/empty/error payload on every input and never raises past the
registry boundary — except book_flight, whose one untagged outcome is its
success path: whenever its result is not structured, the provider replied
201 with an order id and the result is the bare confirmation string. -/
theorem handlers_structured_except_book_flight_success :
    (∀ (cache : FlightDict) (o d dd : Option String) (mp : Option Int)
        (env : FlightSearchEnv),
      isStructured (search_flights cache o d dd mp env).1 = true) ∧
    (∀ (st : ProcState) (cc : Option String) (la lo : Option Int)
        (hids : Option (List String)) (env : HotelSearchEnv),
      isStructured (search_hotels st cc la lo hids env).1 = true) ∧
    (∀ st : ProcState, isStructured (get_next_hotel_results st).1 = true) ∧
    (∀ (hids : Option (List String)) (ci co : Option String) (ad : Option Int)
        (today : String) (env : OffersEnv),
      isStructured (search_hotel_offers hids ci co ad today env).1 = true) ∧
    (∀ (oid : Option String) (gs : Option (List Guest)) (env : HotelBookEnv),
      isStructured (book_hotel oid gs env).1 = true) ∧
    (∀ (cache : FlightDict) (bid name : Option String) (env : FlightBookEnv),
      isStructured (book_flight cache bid name env).1 = false →
      env.respStatus = 201 ∧ env.respDataId.isSome = true ∧
      (book_flight cache bid name env).1 =
        .plainString ("✅ Booking Confirmed! Booking ID: " ++ env.respDataId.getD "")) := by
  refine ⟨?_, ?_, ?_, ?_, ?_, ?_⟩
  · intro cache o d dd mp env
    unfold search_flights
    repeat' split
    all_goals rfl
  · intro st cc la lo hids env
    unfold search_hotels
    repeat' split
    all_goals first
      | rfl
      | exact hotelSearchFetch_structured _ _ _
  · exact get_next_hotel_results_structured
  · intro hids ci co ad today env
    unfold search_hotel_offers
    repeat' split
    all_goals rfl
  · intro oid gs env
    unfold book_hotel
    repeat' split
    all_goals rfl
  · intro cache bid name env h
    cases hres : (book_flight cache bid name env).1 with
    | plainString s =>
      obtain ⟨h1, h2, h3⟩ := book_flight_plainString_inv cache bid name env s hres
      exact ⟨h1, h2, by rw [h3]⟩
    | errorMsg m => rw [hres] at h; simp [isStructured] at h
    | emptyMsg m => rw [hres] at h; simp [isStructured] at h
    | successFlights fl => rw [hres] at h; simp [isStructured] at h
    | successHotels hl => rw [hres] at h; simp [isStructured] at h
    | successOffers ol m => rw [hres] at h; simp [isStructured] at h
    | successBooking b => rw [hres] at h; simp [isStructured] at h

/-- C8 witness: the amended statement at a concrete hotel search (tagged
success) and at book_flight's success path (bare confirmation string). -/
theorem handlers_structured_witness :
    isStructured (search_hotels initState (some "NYC") none none none
        ⟨true, 200, [mkHotel 1], ""⟩).1 = true ∧
    ((⟨true, 201, some "ORDER1", ""⟩ : FlightBookEnv).respStatus = 201 ∧
     (⟨true, 201, some "ORDER1", ""⟩ : FlightBookEnv).respDataId.isSome = true ∧
     (book_flight [("FL1", flight1)] (some "FL1") (some "John Smith")
        ⟨true, 201, some "ORDER1", ""⟩).1 =
       .plainString ("✅ Booking Confirmed! Booking ID: " ++
         (⟨true, 201, some "ORDER1", ""⟩ : FlightBookEnv).respDataId.getD "")) :=
  ⟨handlers_structured_except_book_flight_success.2.1 initState (some "NYC")
      none none none ⟨true, 200, [mkHotel 1], ""⟩,
   handlers_structured_except_book_flight_success.2.2.2.2.2 [("FL1", flight1)]
      (some "FL1") (some "John Smith") ⟨true, 201, some "ORDER1", ""⟩ (by decide)⟩

/-- C1 counterexample: book_hotel with offer id "OF1" that no search ever
returned (there is not even a cache parameter to consult) acquires a
token, issues the booking POST, and reports a successful booking — it
neither returns a cache-miss error nor refrains from the network call. -/
theorem book_hotel_books_unseen_id_counterexample :
    (book_hotel (some "OF1") (some [guest1]) ⟨true, 201, some "BK1", ""⟩).1 =
      .successBooking "BK1" ∧
    (book_hotel (some "OF1") (some [guest1]) ⟨true, 201, some "BK1", ""⟩).2 =
      [NetEvent.tokenRequest,
       NetEvent.hotelBookingPost ⟨[guest1], ["1"], "OF1", "john@example.com", "John Smith"⟩] := by
  decide

/-- C1 (amended): book_flight with an identifier absent from the flight
cache fails with the cache-miss error and issues no network request at
all; book_hotel, however, performs no cache lookup: for any non-empty
offer id and guest list it always requests a token, and when the token
exchange succeeds it issues the booking POST built directly from the
caller-supplied identifier. -/
theorem booking_cache_miss_behaviour :
    (∀ (cache : FlightDict) (bid name : String) (env : FlightBookEnv),
      bid ≠ "" → name ≠ "" → dictGet cache bid = none →
      book_flight cache (some bid) (some name) env = (.errorMsg flightCacheMissMsg, [])) ∧
    (∀ (oid : String) (g : Guest) (gs : List Guest) (env : HotelBookEnv), oid ≠ "" →
      NetEvent.tokenRequest ∈ (book_hotel (some oid) (some (g :: gs)) env).2 ∧
      (env.tokenOk = true →
        (book_hotel (some oid) (some (g :: gs)) env).2 =
          [NetEvent.tokenRequest,
           NetEvent.hotelBookingPost
             ⟨g :: gs, (List.range (g :: gs).length).map (fun i => toString (i + 1)),
              oid, g.email, g.firstName ++ " " ++ g.lastName⟩])) := by
  constructor
  · intro cache bid name env hbid hname hget
    unfold book_flight
    have h1 : truthyStr (some bid) = true := by simp [truthyStr, hbid]
    have h2 : truthyStr (some name) = true := by simp [truthyStr, hname]
    simp only [h1, h2, Bool.not_true, Bool.false_eq_true, if_false, Option.getD_some, hget]
  · intro oid g gs env hoid
    cases htok : env.tokenOk
    · constructor
      · simp [book_hotel, truthyStr, truthyList, hoid, htok]
      · intro hcontr
        cases hcontr
    · have hb : book_hotel (some oid) (some (g :: gs)) env =
          (if env.respStatus ≠ 201 then
            (.errorMsg ("Failed to book hotel: " ++ env.respErrorsText),
             [NetEvent.tokenRequest,
              NetEvent.hotelBookingPost
                ⟨g :: gs, (List.range (g :: gs).length).map (fun i => toString (i + 1)),
                 oid, g.email, g.firstName ++ " " ++ g.lastName⟩])
          else
            match env.respDataId with
            | some o => (.successBooking o,
                [NetEvent.tokenRequest,
                 NetEvent.hotelBookingPost
                  ⟨g :: gs, (List.range (g :: gs).length).map (fun i => toString (i + 1)),
                   oid, g.email, g.firstName ++ " " ++ g.lastName⟩])
            | none => (genericError,
                [NetEvent.tokenRequest,
                 NetEvent.hotelBookingPost
                  ⟨g :: gs, (List.range (g :: gs).length).map (fun i => toString (i + 1)),
                   oid, g.email, g.firstName ++ " " ++ g.lastName⟩])) := by
        unfold book_hotel
        simp [truthyStr, truthyList, hoid, htok]
      constructor
      · rw [hb]
        split
        · simp
        · split <;> simp
      · intro _
        rw [hb]
        split
        · rfl
        · split <;> rfl

/-- C1 witness: the amended statement at a concrete cache-missing flight
booking and a concrete hotel booking. -/
theorem booking_cache_miss_behaviour_witness :
    book_flight [] (some "FLX") (some "John Smith") ⟨true, 201, some "X", ""⟩ =
      (.errorMsg flightCacheMissMsg, []) ∧
    NetEvent.tokenRequest ∈
      (book_hotel (some "OF1") (some [guest1]) ⟨false, 500, none, ""⟩).2 :=
  ⟨booking_cache_miss_behaviour.1 [] "FLX" "John Smith" ⟨true, 201, some "X", ""⟩
      (by decide) (by decide) (by decide),
   (booking_cache_miss_behaviour.2 "OF1" guest1 [] ⟨false, 500, none, ""⟩ (by decide)).1⟩

/-- Dispatched calls are exactly those with parseable arguments and a name
in FUNCTION_MAP, in order. -/
theorem processToolCalls_execs (execute : ToolCall → Except String PyResult) :
    ∀ tcs : List ToolCall,
      (processToolCalls execute tcs).2 =
        tcs.filter (fun tc => tc.argsError.isNone && FUNCTION_MAP_names.contains tc.name)
  | [] => rfl
  | tc :: rest => by
    unfold processToolCalls
    cases he : tc.argsError with
    | some e =>
      simp [he, processToolCalls_execs execute rest, List.filter_cons]
    | none =>
      by_cases hc : tc.name ∈ FUNCTION_MAP_names
      · cases hex : execute tc <;>
          simp [he, hc, hex, processToolCalls_execs execute rest, List.filter_cons]
      · simp [he, hc, processToolCalls_execs execute rest, List.filter_cons]

/-- C2 counterexample: when the first model reply carries one tool call
and the follow-up reply carries a tool call again, the endpoint does not
run a second round — it returns the follow-up reply's text as the final
answer and only the first reply's call was ever executed. -/
theorem second_toolcall_reply_returned_counterexample :
    (runChatTurn [] ⟨none, [tcSearch1]⟩ execEmpty
        (.ok ⟨some "Let me search again", [tcSearch2]⟩)).sentText =
      "Let me search again" ∧
    (runChatTurn [] ⟨none, [tcSearch1]⟩ execEmpty
        (.ok ⟨some "Let me search again", [tcSearch2]⟩)).executed = [tcSearch1] ∧
    (⟨some "Let me search again", [tcSearch2]⟩ : ModelReply).tool_calls ≠ [] := by
  refine ⟨by decide, by decide, by decide⟩

/-- C2 (amended): the endpoint performs at most one round of tool
execution per user message.  If the first model reply has no tool calls
its text (or the fallback) is returned and nothing is executed; if it has
tool calls, exactly those of its calls that parse and name a FUNCTION_MAP
entry are executed, and then the second reply's text (or the fallback, or
the apology on an exception) is returned unconditionally — even when the
second reply itself carries tool calls, they are never executed. -/
theorem chat_turn_single_round (messages : List Msg) (reply1 : ModelReply)
    (execute : ToolCall → Except String PyResult)
    (reply2 : Except String ModelReply) :
    (reply1.tool_calls = [] →
      (runChatTurn messages reply1 execute reply2).sentText =
        contentOrFallback reply1.content ∧
      (runChatTurn messages reply1 execute reply2).executed = []) ∧
    (reply1.tool_calls ≠ [] →
      (runChatTurn messages reply1 execute reply2).executed =
        reply1.tool_calls.filter
          (fun tc => tc.argsError.isNone && FUNCTION_MAP_names.contains tc.name) ∧
      (∀ tc ∈ (runChatTurn messages reply1 execute reply2).executed,
        tc ∈ reply1.tool_calls) ∧
      (runChatTurn messages reply1 execute reply2).sentText =
        (match reply2 with
         | .ok r2 => contentOrFallback r2.content
         | .error e => contentOrFallback (some (errorApology e)))) := by
  constructor
  · intro hempty
    unfold runChatTurn
    rw [if_pos (by simp [hempty])]
    exact ⟨rfl, rfl⟩
  · intro hne
    unfold runChatTurn
    rw [if_neg (by simp [hne])]
    refine ⟨processToolCalls_execs execute reply1.tool_calls, ?_, ?_⟩
    · intro tc htc
      rw [processToolCalls_execs execute reply1.tool_calls] at htc
      exact List.mem_of_mem_filter htc
    · cases reply2 <;> rfl

/-- C2 witness: the amended statement at the concrete two-reply scenario
of the counterexample. -/
theorem chat_turn_single_round_witness :
    (runChatTurn [] ⟨none, [tcSearch1]⟩ execEmpty
        (.ok ⟨some "Let me search again", [tcSearch2]⟩)).executed =
      [tcSearch1].filter
        (fun tc => tc.argsError.isNone && FUNCTION_MAP_names.contains tc.name) ∧
    (∀ tc ∈ (runChatTurn [] ⟨none, [tcSearch1]⟩ execEmpty
        (.ok ⟨some "Let me search again", [tcSearch2]⟩)).executed,
      tc ∈ ([tcSearch1] : List ToolCall)) ∧
    (runChatTurn [] ⟨none, [tcSearch1]⟩ execEmpty
        (.ok ⟨some "Let me search again", [tcSearch2]⟩)).sentText =
      contentOrFallback (some "Let me search again") :=
  (chat_turn_single_round [] ⟨none, [tcSearch1]⟩ execEmpty
      (.ok ⟨some "Let me search again", [tcSearch2]⟩)).2 (by decide)

set_option maxRecDepth 16384 in
/-- C4: the tool `get_next_hotel_results` is advertised to the model in
AVAILABLE_FUNCTIONS yet absent from FUNCTION_MAP, and a model-issued call
to it (valid arguments) is silently dropped: no tool message of any kind
is appended, so the round's history ends with an assistant message whose
tool call has no corresponding tool message. -/
theorem unknown_tool_silently_dropped :
    "get_next_hotel_results" ∈ AVAILABLE_FUNCTIONS_names ∧
    "get_next_hotel_results" ∉ FUNCTION_MAP_names ∧
    (processToolCalls execEmpty [tcGetNext]).1 = [] ∧
    (runChatTurn [] ⟨none, [tcGetNext]⟩ execEmpty (.ok ⟨some "done", []⟩)).history =
      [systemMsg,
       { role := "assistant", content := none, tool_calls := [tcGetNext],
         tool_call_id := none }] ∧
    ((runChatTurn [] ⟨none, [tcGetNext]⟩ execEmpty
        (.ok ⟨some "done", []⟩)).history.filter
      (fun m => m.tool_call_id == some tcGetNext.id)) = [] := by
  refine ⟨by decide, by decide, by decide, ?_, ?_⟩ <;> decide

/-- Looking up a key in a cons dict. -/
theorem dictGet_cons (p : String × α) (d : List (String × α)) (k : String) :
    dictGet (p :: d) k = if p.1 == k then some p.2 else dictGet d k := by
  cases hp : (p.1 == k) <;> simp [dictGet, List.find?_cons, hp]

/-- An inserted binding is found. -/
theorem dictGet_dictInsert_self (k : String) (v : α) :
    ∀ d : List (String × α), dictGet (dictInsert k v d) k = some v := by
  intro d
  induction d with
  | nil => simp [dictInsert, dictGet_cons]
  | cons p tl ih =>
    unfold dictInsert
    by_cases hp : p.1 = k
    · rw [if_pos (by simp [hp]), dictGet_cons]
      simp
    · rw [if_neg (by simp [hp]), dictGet_cons]
      rw [if_neg (by simp [hp])]
      exact ih

/-- Inserting another key leaves a lookup unchanged. -/
theorem dictGet_dictInsert_ne (k' k : String) (v : α) (hk : k' ≠ k) :
    ∀ d : List (String × α), dictGet (dictInsert k' v d) k = dictGet d k := by
  intro d
  induction d with
  | nil =>
    simp [dictInsert, dictGet_cons, dictGet]
    intro h
    exact absurd h hk
  | cons p tl ih =>
    unfold dictInsert
    by_cases hp : p.1 = k'
    · rw [if_pos (by simp [hp]), dictGet_cons, dictGet_cons]
      rw [if_neg (by simp [hk]), if_neg (by simp [hp, hk])]
    · rw [if_neg (by simp [hp]), dictGet_cons, dictGet_cons]
      by_cases hpk : p.1 = k
      · rw [if_pos (by simp [hpk]), if_pos (by simp [hpk])]
      · rw [if_neg (by simp [hpk]), if_neg (by simp [hpk])]
        exact ih

/-- Folding inserts whose keys all differ from `k` does not change the
lookup at `k`. -/
theorem dictGet_foldl_ne (keyf : β → String) (l : List β) :
    ∀ (init : List (String × β)) (k : String), (∀ x ∈ l, keyf x ≠ k) →
      dictGet (l.foldl (fun c x => dictInsert (keyf x) x c) init) k = dictGet init k := by
  induction l with
  | nil => intro init k _; rfl
  | cons x xs ih =>
    intro init k h
    simp only [List.foldl_cons]
    rw [ih _ k (fun y hy => h y (List.mem_cons_of_mem x hy))]
    exact dictGet_dictInsert_ne (keyf x) k x (h x (List.mem_cons_self x xs)) init

/-- After inserting a list with pairwise-distinct keys, every element is
found under its own key. -/
theorem dictGet_foldl_insert_nodup (keyf : β → String) (l : List β) :
    ∀ (init : List (String × β)) (f : β), (l.map keyf).Nodup → f ∈ l →
      dictGet (l.foldl (fun c x => dictInsert (keyf x) x c) init) (keyf f) = some f := by
  induction l with
  | nil => intro _ f _ hf; cases hf
  | cons x xs ih =>
    intro init f hnd hf
    simp only [List.foldl_cons]
    rw [List.map_cons, List.nodup_cons] at hnd
    rcases List.mem_cons.mp hf with rfl | hfx
    · have hne : ∀ y ∈ xs, keyf y ≠ keyf f := by
        intro y hy he
        exact hnd.1 (he ▸ List.mem_map_of_mem keyf hy)
      rw [dictGet_foldl_ne keyf xs _ (keyf f) hne]
      exact dictGet_dictInsert_self (keyf f) f init
    · exact ih _ f hnd.2 hfx

/-- Inserting never removes a present key. -/
theorem dictGet_dictInsert_isSome (k' k : String) (v : α) (d : List (String × α))
    (h : (dictGet d k).isSome = true) :
    (dictGet (dictInsert k' v d) k).isSome = true := by
  by_cases hk : k' = k
  · subst hk
    rw [dictGet_dictInsert_self k' v d]
    rfl
  · rw [dictGet_dictInsert_ne k' k v hk d]
    exact h

/-- Folding inserts preserves key presence. -/
theorem dictGet_foldl_isSome_mono (keyf : β → String) (l : List β) :
    ∀ (init : List (String × β)) (k : String), (dictGet init k).isSome = true →
      (dictGet (l.foldl (fun c x => dictInsert (keyf x) x c) init) k).isSome = true := by
  induction l with
  | nil => intro init k h; exact h
  | cons x xs ih =>
    intro init k h
    simp only [List.foldl_cons]
    exact ih _ k (dictGet_dictInsert_isSome (keyf x) k x init h)

/-- After inserting a list, every member's key is present. -/
theorem dictGet_foldl_insert_isSome (keyf : β → String) (l : List β) :
    ∀ (init : List (String × β)) (f : β), f ∈ l →
      (dictGet (l.foldl (fun c x => dictInsert (keyf x) x c) init) (keyf f)).isSome = true := by
  induction l with
  | nil => intro _ f hf; cases hf
  | cons x xs ih =>
    intro init f hf
    simp only [List.foldl_cons]
    rcases List.mem_cons.mp hf with rfl | hfx
    · exact dictGet_foldl_isSome_mono keyf xs _ (keyf f)
        (by rw [dictGet_dictInsert_self]; rfl)
    · exact ih _ f hfx

/-- Every element of a successful mapOption result comes from a source
element. -/
theorem mapOption_mem (f : α → Option β) :
    ∀ (l : List α) (ys : List β), mapOption f l = some ys →
      ∀ y ∈ ys, ∃ x ∈ l, f x = some y := by
  intro l
  induction l with
  | nil =>
    intro ys h y hy
    unfold mapOption at h
    injection h with h
    subst h
    cases hy
  | cons x xs ih =>
    intro ys h y hy
    unfold mapOption at h
    cases hfx : f x <;> rw [hfx] at h
    · cases h
    · cases hm : mapOption f xs <;> rw [hm] at h
      · cases h
      · injection h with h
        subst h
        rcases List.mem_cons.mp hy with rfl | hmem
        · exact ⟨x, List.mem_cons_self x xs, hfx⟩
        · obtain ⟨x', hx', hfx'⟩ := ih _ hm y hmem
          exact ⟨x', List.mem_cons_of_mem x hx', hfx'⟩

/-- A successful projection certifies the shape facts book_flight's body
construction needs, and carries the flight's own id as booking_id. -/
theorem projectFlight_inv (f : Flight) (p : FlightProjection)
    (h : projectFlight f = some p) :
    p.booking_id = f.id ∧ f.itineraries.head?.isSome = true ∧
    f.travelerPricings.head?.isSome = true := by
  unfold projectFlight at h
  obtain ⟨a, h1⟩ : ∃ a, f.validatingAirlineCodes.head? = some a := by
    cases hx : f.validatingAirlineCodes.head?
    · rw [hx] at h; simp at h
    · exact ⟨_, rfl⟩
  rw [h1] at h
  simp only [Option.bind_eq_bind, Option.some_bind] at h
  obtain ⟨it0, h2⟩ : ∃ it0, f.itineraries.head? = some it0 := by
    cases hx : f.itineraries.head?
    · rw [hx] at h; simp at h
    · exact ⟨_, rfl⟩
  rw [h2] at h
  simp only [Option.bind_eq_bind, Option.some_bind] at h
  obtain ⟨s0, h3⟩ : ∃ s0, it0.segments.head? = some s0 := by
    cases hx : it0.segments.head?
    · rw [hx] at h; simp at h
    · exact ⟨_, rfl⟩
  rw [h3] at h
  simp only [Option.bind_eq_bind, Option.some_bind] at h
  obtain ⟨sl, h4⟩ : ∃ sl, it0.segments.getLast? = some sl := by
    cases hx : it0.segments.getLast?
    · rw [hx] at h; simp at h
    · exact ⟨_, rfl⟩
  rw [h4] at h
  simp only [Option.bind_eq_bind, Option.some_bind] at h
  obtain ⟨tp0, h5⟩ : ∃ tp0, f.travelerPricings.head? = some tp0 := by
    cases hx : f.travelerPricings.head?
    · rw [hx] at h; simp at h
    · exact ⟨_, rfl⟩
  rw [h5] at h
  simp only [Option.bind_eq_bind, Option.some_bind] at h
  obtain ⟨fd0, h6⟩ : ∃ fd0, tp0.fareDetailsBySegment.head? = some fd0 := by
    cases hx : tp0.fareDetailsBySegment.head?
    · rw [hx] at h; simp at h
    · exact ⟨_, rfl⟩
  rw [h6] at h
  simp only [Option.bind_eq_bind, Option.some_bind] at h
  obtain ⟨dur, h7⟩ : ∃ dur, format_duration it0.duration = some dur := by
    cases hx : format_duration it0.duration
    · rw [hx] at h; simp at h
    · exact ⟨_, rfl⟩
  rw [h7] at h
  simp only [Option.bind_eq_bind, Option.some_bind, Option.some.injEq] at h
  refine ⟨?_, by rw [h2]; rfl, by rw [h5]; rfl⟩
  rw [← h]

/-- Inversion of a successful search_flights call: the arguments were
truthy, the token exchange succeeded, the provider answered 200 with a
non-empty list, all projections succeeded, and the cache was extended by
inserting every returned flight under its id. -/
theorem search_flights_success_inv (cache : FlightDict) (o d dd : Option String)
    (mp : Option Int) (env : FlightSearchEnv) (ps : List FlightProjection)
    (cache' : FlightDict) (evs : List NetEvent)
    (h : search_flights cache o d dd mp env = (.successFlights ps, cache', evs)) :
    env.tokenOk = true ∧ env.respStatus = 200 ∧ env.respData ≠ [] ∧
    mapOption projectFlight env.respData = some ps ∧
    cache' = env.respData.foldl (fun c f => dictInsert f.id f c) cache ∧
    evs = [NetEvent.tokenRequest, NetEvent.flightSearchGet] := by
  unfold search_flights at h
  split at h
  · simp at h
  next hargs =>
    split at h
    · simp [genericError] at h
    next htok =>
      split at h
      · simp at h
      next hstatus =>
        split at h
        · simp at h
        next hdata =>
          split at h
          · simp [genericError] at h
          next ps' hmap =>
            simp only [Prod.mk.injEq] at h
            obtain ⟨h1, h2, h3⟩ := h
            injection h1 with h1
            subst h1
            refine ⟨by simpa using htok, by omega, ?_, hmap, h2.symm, h3.symm⟩
            intro hnil
            rw [hnil] at hdata
            simp at hdata

/-- When the shape facts hold and the name has two tokens, the body
construction succeeds and copies itinerary and price fields from the
cached entity. -/
theorem buildFlightOrderBody_some (f : Flight) (name : String) (it0 : Itinerary)
    (tp0 : TravelerPricing) (hit : f.itineraries.head? = some it0)
    (htp : f.travelerPricings.head? = some tp0) (hname : 2 ≤ (pySplit name).length) :
    ∃ body, buildFlightOrderBody f name = some body ∧
      body.segments = it0.segments.map orderSegmentOf ∧
      body.price.currency = f.price.currency ∧
      body.price.total = f.price.total ∧
      body.price.base = f.price.base := by
  obtain ⟨fn, hfn⟩ : ∃ fn, (pySplit name)[0]? = some fn := by
    cases hx : (pySplit name)[0]?
    · have := List.getElem?_eq_none_iff.mp hx
      omega
    · exact ⟨_, rfl⟩
  obtain ⟨ln, hln⟩ : ∃ ln, (pySplit name)[1]? = some ln := by
    cases hx : (pySplit name)[1]?
    · have := List.getElem?_eq_none_iff.mp hx
      omega
    · exact ⟨_, rfl⟩
  unfold buildFlightOrderBody
  rw [hit, htp]
  simp only [Option.bind_eq_bind, Option.some_bind, List.get?_eq_getElem?]
  rw [hfn, hln]
  simp only [Option.bind_eq_bind, Option.some_bind]
  exact ⟨_, rfl, rfl, rfl, rfl, rfl⟩

/-- C6: after every successful search_flights call, each returned flight
entity (with provider-unique, non-empty ids) is stored in the cache under
its provider identifier; every booking_id in the returned projection list
resolves through the cache in a subsequent book_flight call in the same
session, which POSTs a booking payload whose itinerary segments and price
fields (currency, total, base) equal those of the cached entity. -/
theorem search_flights_cache_and_booking
    (cache : FlightDict) (o d dd : Option String) (mp : Option Int)
    (env : FlightSearchEnv) (ps : List FlightProjection) (cache' : FlightDict)
    (evs : List NetEvent) (name : String) (benv : FlightBookEnv)
    (hrun : search_flights cache o d dd mp env = (.successFlights ps, cache', evs))
    (hnodup : (env.respData.map Flight.id).Nodup)
    (hids : ∀ f ∈ env.respData, f.id ≠ "")
    (hname : 2 ≤ (pySplit name).length) (hname2 : name ≠ "")
    (htok : benv.tokenOk = true) :
    (∀ f ∈ env.respData, dictGet cache' f.id = some f) ∧
    (∀ p ∈ ps, ∃ f ∈ env.respData,
      p.booking_id = f.id ∧
      dictGet cache' p.booking_id = some f ∧
      ∃ body, buildFlightOrderBody f name = some body ∧
        (book_flight cache' (some p.booking_id) (some name) benv).2 =
          [NetEvent.tokenRequest, NetEvent.flightBookingPost body] ∧
        body.price.currency = f.price.currency ∧
        body.price.total = f.price.total ∧
        body.price.base = f.price.base ∧
        (∀ it0, f.itineraries.head? = some it0 →
          body.segments = it0.segments.map orderSegmentOf)) := by
  obtain ⟨htokS, hstat, hne, hmap, hcache, hevs⟩ :=
    search_flights_success_inv cache o d dd mp env ps cache' evs hrun
  have parta : ∀ f ∈ env.respData, dictGet cache' f.id = some f := by
    intro f hf
    rw [hcache]
    exact dictGet_foldl_insert_nodup Flight.id env.respData cache f hnodup hf
  refine ⟨parta, ?_⟩
  intro p hp
  obtain ⟨f, hf, hproj⟩ := mapOption_mem projectFlight env.respData ps hmap p hp
  obtain ⟨hbid, hit, htp⟩ := projectFlight_inv f p hproj
  obtain ⟨it0, hit0⟩ := Option.isSome_iff_exists.mp hit
  obtain ⟨tp0, htp0⟩ := Option.isSome_iff_exists.mp htp
  obtain ⟨body, hbody, hsegs, hc1, hc2, hc3⟩ :=
    buildFlightOrderBody_some f name it0 tp0 hit0 htp0 hname
  have hget : dictGet cache' p.booking_id = some f := by
    rw [hbid]
    exact parta f hf
  refine ⟨f, hf, hbid, hget, body, hbody, ?_, hc1, hc2, hc3, ?_⟩
  · unfold book_flight
    have h1 : truthyStr (some p.booking_id) = true := by
      simp [truthyStr, hbid]
      exact hids f hf
    have h2 : truthyStr (some name) = true := by simp [truthyStr, hname2]
    rw [h1, h2]
    simp only [Bool.not_true, Bool.false_eq_true, if_false, Option.getD_some]
    rw [hget, htok]
    simp only [Bool.not_true, Bool.false_eq_true, if_false]
    rw [hbody]
    dsimp only
    split <;> first | rfl | (split <;> rfl)
  · intro it0' hit0'
    rw [hit0] at hit0'
    injection hit0' with he
    rw [← he]
    exact hsegs

/-- C6 witness: searching with a provider response containing `flight1`
caches it under "FL1", and booking "FL1" for "John Smith" POSTs the
payload built from the cached entity. -/
theorem search_flights_cache_and_booking_witness :
    dictGet [("FL1", flight1)] "FL1" = some flight1 ∧
    (book_flight [("FL1", flight1)] (some projW6.booking_id) (some "John Smith")
        ⟨true, 201, some "OK", ""⟩).2 =
      [NetEvent.tokenRequest, NetEvent.flightBookingPost bodyW6] := by
  have h := search_flights_cache_and_booking [] (some "JFK") (some "MAD")
      (some "2025-06-01") (some 800) ⟨true, 200, [flight1], ""⟩ [projW6]
      [("FL1", flight1)] [NetEvent.tokenRequest, NetEvent.flightSearchGet]
      "John Smith" ⟨true, 201, some "OK", ""⟩
      (by decide) (by decide) (by decide) (by decide) (by decide) (by decide)
  refine ⟨h.1 flight1 (by decide), ?_⟩
  obtain ⟨f, hf, hbid, hget, body, hbody, hevs2, -⟩ := h.2 projW6 (by decide)
  have hff : f = flight1 := by
    have := List.mem_singleton.mp hf
    exact this
  rw [hff] at hbody
  have hb2 : buildFlightOrderBody flight1 "John Smith" = some bodyW6 := by decide
  rw [hb2] at hbody
  injection hbody with hbody
  rw [hbody]
  exact hevs2

/-- C3 counterexample: two concurrently connected sessions 0 and 1.  In
the run where session 0 first performs a flight search, session 1's
book_flight("FL1") succeeds; in the run without session 0's search, the
same session-1 operation fails with the cache-miss error.  Session 0's
search changed session 1's booking outcome, refuting two-run
noninterference across sessions. -/
theorem cross_session_interference_counterexample :
    (runOps initState
        [(0, .searchFlightsOp (some "JFK") (some "MAD") (some "2025-06-01")
              (some 800) envS3),
         (1, .bookFlightOp (some "FL1") (some "John Smith") envB3)]).1 =
      [(0, .successFlights [projW6]),
       (1, .plainString "✅ Booking Confirmed! Booking ID: ORDER1")] ∧
    (runOps initState
        [(1, .bookFlightOp (some "FL1") (some "John Smith") envB3)]).1 =
      [(1, .errorMsg flightCacheMissMsg)] := by
  refine ⟨by decide, by decide⟩

/-- C3 (amended): the caches are process-wide, not session-scoped — the
embedding has a single `ProcState` for all sessions because the Python
caches are module-level dicts.  After a successful flight search issued
by any session `a`, every flight it returned is present in the one shared
cache, a booking issued by any other session `b` with that flight's id
does not produce the cache-miss outcome, and in the interleaved two-
session run session b's result is exactly the booking outcome computed
from the cache session a populated. -/
theorem caches_process_wide (a b : Nat) (st : ProcState) (o d dd : Option String)
    (mp : Option Int) (envS : FlightSearchEnv) (envB : FlightBookEnv)
    (f : Flight) (name : String) (hf : f ∈ envS.respData) (hid : f.id ≠ "")
    (hname : name ≠ "") (ps : List FlightProjection) (st1 : ProcState)
    (evs : List NetEvent)
    (hsearch : stepOp st (.searchFlightsOp o d dd mp envS) =
      (.successFlights ps, st1, evs)) :
    (dictGet st1.flight_cache f.id).isSome = true ∧
    stepOp st1 (.bookFlightOp (some f.id) (some name) envB) ≠
      (.errorMsg flightCacheMissMsg, st1, ([] : List NetEvent)) ∧
    (runOps st [(a, .searchFlightsOp o d dd mp envS),
                (b, .bookFlightOp (some f.id) (some name) envB)]).1 =
      [(a, .successFlights ps),
       (b, (book_flight st1.flight_cache (some f.id) (some name) envB).1)] := by
  have h1 : (search_flights st.flight_cache o d dd mp envS).1 = .successFlights ps :=
    congrArg Prod.fst hsearch
  have h2 : ({ st with flight_cache :=
      (search_flights st.flight_cache o d dd mp envS).2.1 } : ProcState) = st1 :=
    congrArg (fun t => t.2.1) hsearch
  have hx : search_flights st.flight_cache o d dd mp envS =
      (.successFlights ps, (search_flights st.flight_cache o d dd mp envS).2.1,
       (search_flights st.flight_cache o d dd mp envS).2.2) := by
    rw [← h1]
  obtain ⟨-, -, -, -, hcache, -⟩ :=
    search_flights_success_inv st.flight_cache o d dd mp envS ps _ _ hx
  have hstc : st1.flight_cache = (search_flights st.flight_cache o d dd mp envS).2.1 := by
    rw [← h2]
  have hsome : (dictGet st1.flight_cache f.id).isSome = true := by
    rw [hstc, hcache]
    exact dictGet_foldl_insert_isSome Flight.id envS.respData st.flight_cache f hf
  obtain ⟨fl, hfl⟩ := Option.isSome_iff_exists.mp hsome
  refine ⟨hsome, ?_, ?_⟩
  · intro hcontr
    have hr1 : (book_flight st1.flight_cache (some f.id) (some name) envB).1 =
        .errorMsg flightCacheMissMsg := congrArg Prod.fst hcontr
    have hr2 : (book_flight st1.flight_cache (some f.id) (some name) envB).2 =
        ([] : List NetEvent) := congrArg (fun t => t.2.2) hcontr
    have ht1 : truthyStr (some f.id) = true := by simp [truthyStr, hid]
    have ht2 : truthyStr (some name) = true := by simp [truthyStr, hname]
    unfold book_flight at hr2
    rw [ht1, ht2] at hr2
    simp only [Bool.not_true, Bool.false_eq_true, if_false, Option.getD_some, hfl] at hr2
    cases htokB : envB.tokenOk <;> rw [htokB] at hr2
    · simp at hr2
    · simp only [Bool.not_true, Bool.false_eq_true, if_false] at hr2
      cases hb : buildFlightOrderBody fl name <;> rw [hb] at hr2
      · simp at hr2
      · dsimp only at hr2
        split at hr2
        · simp at hr2
        · split at hr2 <;> simp at hr2
  · simp only [runOps]
    rw [hsearch]
    rfl

/-- C3 witness: the amended statement at the concrete two-session
scenario of the counterexample. -/
theorem caches_process_wide_witness :
    (dictGet stW3.flight_cache flight1.id).isSome = true ∧
    stepOp stW3 (.bookFlightOp (some flight1.id) (some "John Smith") envB3) ≠
      (.errorMsg flightCacheMissMsg, stW3, ([] : List NetEvent)) ∧
    (runOps initState
        [(0, .searchFlightsOp (some "JFK") (some "MAD") (some "2025-06-01")
              (some 800) envS3),
         (1, .bookFlightOp (some flight1.id) (some "John Smith") envB3)]).1 =
      [(0, .successFlights [projW6]),
       (1, (book_flight stW3.flight_cache (some flight1.id) (some "John Smith")
              envB3).1)] :=
  caches_process_wide 0 1 initState (some "JFK") (some "MAD") (some "2025-06-01")
    (some 800) envS3 envB3 flight1 "John Smith" (by decide) (by decide) (by decide)
    [projW6] stW3 [NetEvent.tokenRequest, NetEvent.flightSearchGet] (by decide)

end TravelAgent
